import Mathlib

/-!
# Verification of the FriendsFC scraper modules

A shallow embedding of the scraper code of the FriendsFC repository
(`src/scrap/*.py`, `src/utils/filesystem.py`) together with proofs of the
behavioural claims about it.  Python strings are modelled as `String` /
`List Char`, machine side effects (filesystem, HTTP, random as well as the
event order) as an explicit `World` state threaded through the functions,
and fallible operations return `Option` or an explicit result type.
-/

namespace FFC

/-! ## Python string primitives (`str.find`, `str.rfind`, slicing) -/

/-- `str.find`: index of the first occurrence of `c` starting at offset `i`,
`-1` when absent. -/
def pyFindAux (c : Char) : List Char → Int → Int
  | [], _ => -1
  | x :: xs, i => if x = c then i else pyFindAux c xs (i + 1)

/-- Python `s.find(c)` for a single-character needle. -/
def pyFind (s : String) (c : Char) : Int := pyFindAux c s.data 0

/-- `str.rfind` inner scan keeping the most recent hit. -/
def pyRFindAux (c : Char) : List Char → Int → Int → Int
  | [], _, best => best
  | x :: xs, i, best => pyRFindAux c xs (i + 1) (if x = c then i else best)

/-- Python `s.rfind(c)` for a single-character needle. -/
def pyRFind (s : String) (c : Char) : Int := pyRFindAux c s.data 0 (-1)

/-- Python slice `s[a:b]` for `0 ≤ a`, `0 ≤ b`. -/
def pySlice (s : String) (a b : Nat) : String := ⟨(s.data.take b).drop a⟩

/-! ## `utils_common.sanitize_dir_name` -/

/-- The characters replaced by `_`
(`src/scrap/utils_common.py`, `problematic_chars`). -/
def problematicChars : List Char := ['/', '\\', '*', '?', '"', '<', '>', '|', ':']

/-- The replacement loop `for char in problematic_chars: clean_name =
clean_name.replace(char, '_')` (each target is a single character, so each
`str.replace` is a character map). -/
def replaceProblematic (s : List Char) : List Char :=
  problematicChars.foldl (fun acc c => acc.map fun x => if x = c then '_' else x) s

/-- Whitespace stripped by Python `str.strip()` (the ASCII whitespace class). -/
def isPySpace (c : Char) : Bool :=
  c = ' ' || c = '\t' || c = '\n' || c = '\r' || c = '\x0b' || c = '\x0c'

/-- Python `str.strip()`. -/
def pyStrip (s : List Char) : List Char :=
  ((s.dropWhile isPySpace).reverse.dropWhile isPySpace).reverse

/-- `re.sub(r'_+', '_', s)`: every maximal run of underscores becomes a single
underscore.  (This keeps the last underscore of each run, which yields the
same string as keeping the first.) -/
def collapseUnderscores : List Char → List Char
  | [] => []
  | [c] => [c]
  | a :: b :: t =>
    if a = '_' && b = '_' then collapseUnderscores (b :: t)
    else a :: collapseUnderscores (b :: t)

/-- `utils_common.sanitize_dir_name`.  The `None` argument is modelled by
`Option.none`; any other argument is already a string in every call site of
the repository, so `str(name)` is the identity. -/
def sanitize_dir_name : Option String → String
  | none => "unnamed"
  | some s => ⟨collapseUnderscores (pyStrip (replaceProblematic s.data))⟩

example : sanitize_dir_name (some "Torneo 2024/25 *final*") = "Torneo 2024_25 _final_" := by
  decide

/-! ## `utils_common.get_torneo_id` -/

/-- `pat` occurs as a contiguous sublist of `s`.  (Python `pat in s`.) -/
def listIsInfix (pat : List Char) : List Char → Bool
  | [] => pat.isEmpty
  | c :: t => pat.isPrefixOf (c :: t) || listIsInfix pat t

/-- Python `s.replace(pat, rep)` with explicit fuel (each step consumes at
least one character, so `s.length` fuel always suffices): replace all
non-overlapping occurrences, scanning left to right. -/
def replaceAllFuel (pat rep : List Char) : Nat → List Char → List Char
  | 0, s => s
  | _ + 1, [] => []
  | n + 1, c :: t =>
    if pat ≠ [] ∧ pat.isPrefixOf (c :: t) then
      rep ++ replaceAllFuel pat rep n (t.drop (pat.length - 1))
    else c :: replaceAllFuel pat rep n t

/-- Python `s.replace(pat, rep)`. -/
def replaceAll (pat rep s : List Char) : List Char :=
  replaceAllFuel pat rep s.length s

/-- Split off one `[^/]+/` group: the maximal nonempty run of non-`/`
characters followed by a `/`, returning the run and the remainder. -/
def segSplit (s : List Char) : Option (List Char × List Char) :=
  match s.dropWhile (· ≠ '/') with
  | '/' :: r =>
    match s.takeWhile (· ≠ '/') with
    | [] => none
    | seg => some (seg, r)
  | _ => none

/-- One attempt of `re.search(r'soccer/[^/]+/([^/]+)/fixtures', url)` anchored
at the start of `s`.  Since `[^/]+` cannot match `/`, the regex engine's
greedy match with backtracking is deterministic here: each `[^/]+` must end
exactly at the next `/`. -/
def matchTorneoAt (s : List Char) : Option String :=
  if ("soccer/".data).isPrefixOf s then
    match segSplit (s.drop 7) with
    | some (_, r1) =>
      match segSplit r1 with
      | some (seg2, r2) =>
        if ("fixtures".data).isPrefixOf r2 then some ⟨seg2⟩ else none
      | none => none
    | none => none
  else none

/-- `re.search` tries every start position from the left and keeps the first
match. -/
def searchTorneo : List Char → Option String
  | [] => none
  | c :: t =>
    match matchTorneoAt (c :: t) with
    | some g => some g
    | none => searchTorneo t

/-- `utils_common.get_torneo_id`: rewrite `results` to `fixtures`, then search
for the tournament id; `None` when the pattern is absent. -/
def get_torneo_id (url : String) : Option String :=
  searchTorneo (replaceAll "results".data "fixtures".data url.data)

example : get_torneo_id "https://example.com/soccer/spain/la-liga-2024/results"
    = some "la-liga-2024" := by decide

/-! ## `utils_common.get_season_name_from_url` -/

/-- Characters allowed in a URL scheme after the leading letter. -/
def isSchemeChar (c : Char) : Bool := c.isAlphanum || c = '+' || c = '-' || c = '.'

/-- The scheme-stripping step of `urllib.parse.urlparse`: when everything
before the first `:` is a valid scheme, drop it. -/
def stripScheme (s : List Char) : List Char :=
  match s.dropWhile (· ≠ ':') with
  | ':' :: rest =>
    match s.takeWhile (· ≠ ':') with
    | [] => s
    | c :: cs => if c.isAlpha && cs.all isSchemeChar then rest else s
  | _ => s

/-- The netloc-stripping step of `urlparse`: after `//`, the authority extends
to the next `/`, `?` or `#`. -/
def stripNetloc (s : List Char) : List Char :=
  match s with
  | '/' :: '/' :: r => r.dropWhile fun c => !(c = '/' || c = '?' || c = '#')
  | _ => s

/-- `urlparse(u).path`: remove scheme and netloc, cut at query or fragment. -/
def urlPath (u : String) : String :=
  ⟨(stripNetloc (stripScheme u.data)).takeWhile fun c => !(c = '?' || c = '#')⟩

/-- Value of a hexadecimal digit. -/
def hexVal (c : Char) : Option Nat :=
  if '0' ≤ c ∧ c ≤ '9' then some (c.toNat - '0'.toNat)
  else if 'a' ≤ c ∧ c ≤ 'f' then some (c.toNat - 'a'.toNat + 10)
  else if 'A' ≤ c ∧ c ≤ 'F' then some (c.toNat - 'A'.toNat + 10)
  else none

/-- `urllib.parse.unquote` at character level: decode `%XX` escapes, leave
malformed escapes untouched.  (Recombination of multi-byte UTF-8 sequences
into single code points is not modelled; no caller of the repository depends
on it.) -/
def unquoteChars : List Char → List Char
  | '%' :: a :: b :: t =>
    match hexVal a, hexVal b with
    | some x, some y => Char.ofNat (16 * x + y) :: unquoteChars t
    | _, _ => '%' :: unquoteChars (a :: b :: t)
  | c :: t => c :: unquoteChars t
  | [] => []

/-- `utils_common.get_season_name_from_url`: split the URL path on `/`, keep
the nonempty parts not containing `soccer`, and return the second one
(unquoted) when at least two remain. -/
def get_season_name_from_url (url : String) : Option String :=
  let parts := ((urlPath url).data.splitOn '/').filter
    fun p => !p.isEmpty && !(listIsInfix "soccer".data p)
  match parts.get? 1 with
  | some p => some ⟨unquoteChars p⟩
  | none => none

example : get_season_name_from_url "https://example.com/soccer/spain/la-liga-2024-25/results"
    = some "la-liga-2024-25" := by decide

/-! ## Miscellaneous Python helpers -/

/-- Python truthiness of an optional string (`if not x:`). -/
def strTruthy : Option String → Bool
  | none => false
  | some s => !s.data.isEmpty

/-- `str(x)` on an optional string: `str(None) = "None"`. -/
def pyStr : Option String → String
  | none => "None"
  | some s => s

/-- The string starts with `/`. -/
def startsSlash (s : String) : Bool :=
  match s.data with
  | '/' :: _ => true
  | _ => false

/-- The string ends with `/`. -/
def endsSlash (s : String) : Bool :=
  match s.data.getLast? with
  | some '/' => true
  | _ => false

/-- One step of `os.path.join` (POSIX flavour): an absolute component
restarts the path, otherwise components are separated by a single `/`. -/
def pyJoinStep (path b : String) : String :=
  if startsSlash b then b
  else if path.data.isEmpty || endsSlash path then path ++ b
  else path ++ "/" ++ b

/-- `os.path.join`. -/
def pyJoin (parts : List String) : String :=
  parts.foldl pyJoinStep ""

/-- `str.title()` scan, tracking whether the previous character was a letter. -/
def pyTitleGo : List Char → Bool → List Char
  | [], _ => []
  | c :: t, prevAlpha =>
    (if c.isAlpha then (if prevAlpha then c.toLower else c.toUpper) else c)
      :: pyTitleGo t c.isAlpha

/-- Python `str.title()`. -/
def pyTitle (s : String) : String := ⟨pyTitleGo s.data false⟩

/-- Python `str.lower()`. -/
def pyLower (s : String) : String := ⟨s.data.map Char.toLower⟩

/-- Python `s.replace(a, b)` for single characters. -/
def pyReplaceChar (a b : Char) (s : String) : String :=
  ⟨s.data.map fun c => if c = a then b else c⟩

example : pyJoin ["data", "Europe", "Spain", "LaLiga_5", "la-liga-2024", "fixture.json"]
    = "data/Europe/Spain/LaLiga_5/la-liga-2024/fixture.json" := by decide

example : pyTitle (pyReplaceChar '_' ' ' "equipo_local") = "Equipo Local" := by decide

/-! ## JSONP unwrapping

The string-slicing step shared by the scrapers
(`FixtureScraper.obtener_fixture_json`, `StandingsScraper.obtener_standings_json`,
`MatchEventScraper._extract_json_from_jsonp`). -/

/-- The slice-and-check in `obtener_fixture_json` / `obtener_standings_json`:
`json_start = content.find('(') + 1`, `json_end = content.rfind(')')`, raising
unless `json_start > 0` and `json_end > json_start`; modelled as `none` on the
raise path. -/
def jsonpSliceFixture (content : String) : Option String :=
  let a : Int := pyFind content '(' + 1
  let b : Int := pyRFind content ')'
  if a ≤ 0 ∨ b ≤ a then none
  else some (pySlice content a.toNat b.toNat)

/-- The variant in `MatchEventScraper._extract_json_from_jsonp`, which also
checks `final_json > 0` and writes the bound as `inicio_json >= final_json`. -/
def jsonpSliceEvents (content : String) : Option String :=
  let a : Int := pyFind content '(' + 1
  let b : Int := pyRFind content ')'
  if a ≤ 0 ∨ b ≤ 0 ∨ a ≥ b then none
  else some (pySlice content a.toNat b.toNat)

/-! ## Filesystem and world model

Effects are modelled by an explicit `World`: a filesystem, a queue of
pending HTTP outcomes, a queue of pending random draws, and the trace of
externally visible events in the order they happen.  A directory exists when
it was created explicitly or when some recorded entry lies underneath it
(as on a real filesystem, where a file's ancestors always exist). -/

structure FS where
  files : List (String × String)
  dirs : List String
deriving DecidableEq

/-- A regular file exists at `p`. -/
def fileExists (fs : FS) (p : String) : Bool := fs.files.any fun q => q.1 = p

/-- A directory exists at `p`. -/
def dirExists (fs : FS) (p : String) : Bool :=
  fs.dirs.contains p
    || fs.files.any (fun q => (p ++ "/").data.isPrefixOf q.1.data)
    || fs.dirs.any (fun d => (p ++ "/").data.isPrefixOf d.data)

/-- `os.path.exists`. -/
def pathExists (fs : FS) (p : String) : Bool := fileExists fs p || dirExists fs p

/-- `open(p, 'w')` followed by a full write: create or overwrite. -/
def writeFile (fs : FS) (p c : String) : FS :=
  { fs with files := (p, c) :: fs.files.filter fun q => q.1 ≠ p }

/-- `os.makedirs(p, exist_ok=True)`. -/
def mkDirs (fs : FS) (p : String) : FS := { fs with dirs := p :: fs.dirs }

/-- Outcome of one HTTP GET, as seen by the scraper: a raised
`RequestException` / error status, a `KeyboardInterrupt` delivered while the
request is in flight, or a response body. -/
inductive HttpResult where
  | failure
  | interrupt
  | ok (body : String)
deriving DecidableEq

/-- Externally visible events, in order. -/
inductive Event where
  | get (url : String)
  | write (path : String)
  | sleep (d : ℚ)
deriving DecidableEq

structure World where
  fs : FS
  http : List HttpResult
  rand : List ℚ
  trace : List Event
deriving DecidableEq

/-- Consume the next pending HTTP outcome. -/
def popHttp (w : World) : HttpResult × World :=
  match w.http with
  | [] => (.failure, w)
  | r :: t => (r, { w with http := t })

/-- Consume the next pending `random.random()` draw (a value in `[0, 1]`). -/
def popRand (w : World) : ℚ × World :=
  match w.rand with
  | [] => (0, w)
  | q :: t => (q, { w with rand := t })

/-- Record an event. -/
def emit (w : World) (e : Event) : World := { w with trace := w.trace ++ [e] }

/-- Outcome of a `save_*` call: a returned boolean, or a propagating
`KeyboardInterrupt` (which `except Exception` does not catch). -/
inductive SaveResult where
  | ret (b : Bool)
  | kb
deriving DecidableEq

/-- Result of the fetch-and-parse helpers (`obtener_*_json`): parsed data, a
raised and later-caught exception, or a propagating `KeyboardInterrupt`. -/
inductive FetchResult where
  | ok (payload : String)
  | err
  | kb

/-! ## Season rows and DataFrame filters -/

/-- One row of the seasons DataFrame (the columns the scrapers read). -/
structure SeasonRow where
  continente : String
  pais : String
  competicion : String
  id_competicion : String
  temporada : String
  url_temporada : String
  url_resultados : String
deriving DecidableEq

/-- The columns of the seasons DataFrame. -/
def seasonColumns : List String :=
  ["continente", "pais", "competicion", "id_competicion", "temporada",
   "url_temporada", "url_resultados"]

/-- Column lookup on a season row. -/
def seasonCol (r : SeasonRow) (c : String) : String :=
  if c = "continente" then r.continente
  else if c = "pais" then r.pais
  else if c = "competicion" then r.competicion
  else if c = "id_competicion" then r.id_competicion
  else if c = "temporada" then r.temporada
  else if c = "url_temporada" then r.url_temporada
  else r.url_resultados

/-- A filter value: a single value or a list (`isin`). -/
inductive FilterVal where
  | one (v : String)
  | many (vs : List String)
deriving DecidableEq

/-- Whether a cell satisfies a filter value. -/
def filterMatches (x : String) : FilterVal → Bool
  | .one v => x = v
  | .many vs => vs.contains x

/-- `_apply_filters` of `FixtureScraper` / `StandingsScraper`: apply each
filter in order, ignoring filters on absent columns.  Rows carry their
original DataFrame index label. -/
def apply_filters (df : List (Nat × SeasonRow)) (filters : List (String × FilterVal)) :
    List (Nat × SeasonRow) :=
  filters.foldl (fun d cv =>
    if seasonColumns.contains cv.1 then
      d.filter fun r => filterMatches (seasonCol r.2 cv.1) cv.2
    else d) df

/-! ## `scraping_fixture.FixtureScraper` -/

/-- Configuration of a scraper instance (constructor arguments and the delay
attributes).  The JSON parser `json.loads` of the standard library is passed
separately as an abstract function returning `none` exactly on invalid
documents. -/
structure ScraperConfig where
  sdapiOutletKey : String
  callbackId : String
  baseUrl : String
  apiBaseUrl : String
  dataDir : String
  minDelay : ℚ
  maxDelay : ℚ

namespace FixtureScraper

/-- `FixtureScraper()` with the constructor defaults. -/
def defaultConfig : ScraperConfig :=
  { sdapiOutletKey := "ft1tiv1inq7v1sk3y9tv12yh5"
    callbackId := "W3e14cbc3e4b2577e854bf210e5a3c7028c7409678"
    baseUrl := "https://www.scoresway.com"
    apiBaseUrl := "https://api.performfeeds.com/soccerdata/match"
    dataDir := "data"
    minDelay := 1
    maxDelay := 2 }

/-- The fixture API URL built in `obtener_fixture_json`. -/
def fixture_api_url (cfg : ScraperConfig) (torneoId : String) : String :=
  cfg.apiBaseUrl ++ "/" ++ cfg.sdapiOutletKey ++ "/?_rt=c&tmcl=" ++ torneoId ++
    "&live=yes&_pgSz=400&_lcl=en&_fmt=jsonp&sps=widgets&_clbk=" ++ cfg.callbackId

/-- `FixtureScraper._get_json_path`; `none` models the `TypeError` that
`os.path.join` raises when the season name cannot be extracted. -/
def get_json_path (cfg : ScraperConfig) (r : SeasonRow) : Option String :=
  match get_season_name_from_url r.url_resultados with
  | none => none
  | some sn =>
    some (pyJoin [cfg.dataDir, pyReplaceChar '/' '_' r.continente,
      pyReplaceChar '/' '_' r.pais,
      pyReplaceChar '/' '_' r.competicion ++ "_" ++ r.id_competicion, sn,
      "fixture.json"])

/-- `FixtureScraper.obtener_fixture_json`: issue the GET, then unwrap the
JSONP envelope and parse it with `jp`; every raised exception is re-raised
as a generic one (`.err`), except `KeyboardInterrupt` (`.kb`). -/
def obtener_fixture_json (cfg : ScraperConfig) (jp : String → Option String)
    (torneoId : String) (w : World) : FetchResult × World :=
  let url := fixture_api_url cfg torneoId
  let (res, w1) := popHttp w
  let w2 := emit w1 (.get url)
  match res with
  | .interrupt => (.kb, w2)
  | .failure => (.err, w2)
  | .ok body =>
    match (jsonpSliceFixture body).bind jp with
    | some d => (.ok d, w2)
    | none => (.err, w2)

/-- The `dir_path` built inside `save_fixture_json` (directory components
cleaned with `str.replace('/', '_')` only). -/
def save_dir_path (cfg : ScraperConfig) (row : SeasonRow) : String :=
  pyJoin [cfg.dataDir, pyReplaceChar '/' '_' row.continente,
    pyReplaceChar '/' '_' row.pais,
    pyReplaceChar '/' '_' row.competicion ++ "_" ++ row.id_competicion,
    (get_season_name_from_url row.url_resultados).getD ""]

/-- The `json_path` built inside `save_fixture_json`. -/
def save_json_path (cfg : ScraperConfig) (row : SeasonRow) : String :=
  pyJoin [save_dir_path cfg row, "fixture.json"]

/-- `FixtureScraper.save_fixture_json`. -/
def save_fixture_json (cfg : ScraperConfig) (jp : String → Option String)
    (row : SeasonRow) (skip_existing : Bool) (w : World) : SaveResult × World :=
  if !strTruthy (get_torneo_id row.url_temporada) then (.ret false, w)
  else if !strTruthy (get_season_name_from_url row.url_resultados) then (.ret false, w)
  else
    let torneoId := (get_torneo_id row.url_temporada).getD ""
    let dirPath := save_dir_path cfg row
    if !pathExists w.fs dirPath then (.ret false, w)
    else
      let jsonPath := save_json_path cfg row
      if skip_existing && pathExists w.fs jsonPath then (.ret true, w)
      else
        match obtener_fixture_json cfg jp torneoId w with
        | (.kb, w1) => (.kb, w1)
        | (.err, w1) => (.ret false, w1)
        | (.ok d, w1) =>
          -- `open(json_path, 'w')` raises (and the exception is caught,
          -- returning False) when the parent is not a directory or the
          -- target is one.
          if !dirExists w1.fs dirPath || dirExists w1.fs jsonPath then (.ret false, w1)
          else
            let w2 := emit { w1 with fs := writeFile w1.fs jsonPath d } (.write jsonPath)
            let (u, w3) := popRand w2
            (.ret true, emit w3 (.sleep (cfg.minDelay + (cfg.maxDelay - cfg.minDelay) * u)))

/-- The statistics dictionary of `FixtureScraper.process_seasons`
(the timing fields are not modelled). -/
structure FixtureStats where
  total_seasons : Nat
  processed : Nat
  success : Nat
  skipped : Nat
  errors : Nat
deriving DecidableEq

/-- The row loop of `FixtureScraper.process_seasons`: a `KeyboardInterrupt`
breaks out, any other save outcome updates the counters and continues.
(When the save returned `True`, `_get_json_path` is necessarily defined, so
the unreachable `none` branch of the re-check is mapped to `false`.) -/
def process_loop (cfg : ScraperConfig) (jp : String → Option String)
    (skip_existing : Bool) :
    List SeasonRow → FixtureStats → World → FixtureStats × World
  | [], st, w => (st, w)
  | row :: rest, st, w =>
    match save_fixture_json cfg jp row skip_existing w with
    | (.kb, w1) => (st, w1)
    | (.ret b, w1) =>
      let st1 := { st with processed := st.processed + 1 }
      let st2 :=
        if b then
          if skip_existing
              && ((get_json_path cfg row).elim false fun p => pathExists w1.fs p) then
            { st1 with skipped := st1.skipped + 1 }
          else { st1 with success := st1.success + 1 }
        else { st1 with errors := st1.errors + 1 }
      process_loop cfg jp skip_existing rest st2 w1

/-- `FixtureScraper.process_seasons`: filter, slice (`iloc[start:end]`, where
a falsy `limit` — `None` or `0` — means "to the end"), then run the loop. -/
def process_seasons (cfg : ScraperConfig) (jp : String → Option String)
    (df : List (Nat × SeasonRow)) (filters : List (String × FilterVal))
    (skip_existing : Bool) (start_index : Nat) (limit : Option Nat)
    (w : World) : FixtureStats × World :=
  let dfF := apply_filters df filters
  let endIndex := match limit with
    | some l => if l ≠ 0 then min (start_index + l) dfF.length else dfF.length
    | none => dfF.length
  let toProcess := ((dfF.take endIndex).drop start_index).map Prod.snd
  process_loop cfg jp skip_existing toProcess
    { total_seasons := toProcess.length, processed := 0, success := 0,
      skipped := 0, errors := 0 } w

/-- The `iloc[start_index:end_index]` slice of the filtered DataFrame that
`process_seasons` iterates over (same construction as in its body). -/
def selected_slice (df : List (Nat × SeasonRow))
    (filters : List (String × FilterVal)) (start_index : Nat)
    (limit : Option Nat) : List (Nat × SeasonRow) :=
  let dfF := apply_filters df filters
  let endIndex := match limit with
    | some l => if l ≠ 0 then min (start_index + l) dfF.length else dfF.length
    | none => dfF.length
  (dfF.take endIndex).drop start_index

end FixtureScraper

/-- The row scan of `find_fixture_resume_index`: the original index label of
the first row whose fixture file is missing, or whose path cannot even be
built (the bare `except: return idx`); `none` when every row's file exists. -/
def find_fixture_resume_scan (cfg : ScraperConfig) (fs : FS) :
    List (Nat × SeasonRow) → Option Nat
  | [] => none
  | (lbl, r) :: t =>
    match FixtureScraper.get_json_path cfg r with
    | none => some lbl
    | some p => if !pathExists fs p then some lbl else find_fixture_resume_scan cfg fs t

/-- `scraping_fixture.find_fixture_resume_index`. -/
def find_fixture_resume_index (fs : FS) (df : List (Nat × SeasonRow))
    (filters : List (String × FilterVal)) : Nat :=
  let dfF := apply_filters df filters
  (find_fixture_resume_scan FixtureScraper.defaultConfig fs dfF).getD dfF.length

/-! ## `scraping_standings.StandingsScraper`

Unlike `FixtureScraper`, this class keeps its counters (`exitos`, `fallos`,
`saltados`, `procesados`) as instance attributes updated inside
`save_standings_json`, and sanitizes the directory components with
`sanitize_dir_name` instead of `str.replace('/', '_')`. -/

/-- The instance counters of `StandingsScraper` (also used for
`MatchEventScraper`, which has the same four attributes). -/
structure Counters where
  exitos : Nat
  fallos : Nat
  saltados : Nat
  procesados : Nat
deriving DecidableEq

/-- `reset_stats`. -/
def Counters.zero : Counters :=
  { exitos := 0, fallos := 0, saltados := 0, procesados := 0 }

namespace StandingsScraper

/-- `StandingsScraper()` with the constructor defaults. -/
def defaultConfig : ScraperConfig :=
  { sdapiOutletKey := "ft1tiv1inq7v1sk3y9tv12yh5"
    callbackId := "W3e14cbc3e4b2577e854bf210e5a3c7028c7409678"
    baseUrl := "https://www.scoresway.com"
    apiBaseUrl := "https://api.performfeeds.com/soccerdata/standings"
    dataDir := "data"
    minDelay := 1
    maxDelay := 2 }

/-- The standings API URL built in `obtener_standings_json` (no `_pgSz`). -/
def standings_api_url (cfg : ScraperConfig) (torneoId : String) : String :=
  cfg.apiBaseUrl ++ "/" ++ cfg.sdapiOutletKey ++ "/?_rt=c&tmcl=" ++ torneoId ++
    "&live=yes&_lcl=en&_fmt=jsonp&sps=widgets&_clbk=" ++ cfg.callbackId

/-- The season directory path built in `save_standings_json` (components
cleaned with `sanitize_dir_name`). -/
def standings_dir_path (dataDir : String) (r : SeasonRow) (seasonName : String) : String :=
  pyJoin [dataDir, sanitize_dir_name (some r.continente),
    sanitize_dir_name (some r.pais),
    sanitize_dir_name (some r.competicion) ++ "_" ++ r.id_competicion, seasonName]

/-- `StandingsScraper.obtener_standings_json`. -/
def obtener_standings_json (cfg : ScraperConfig) (jp : String → Option String)
    (torneoId : String) (w : World) : FetchResult × World :=
  let url := standings_api_url cfg torneoId
  let (res, w1) := popHttp w
  let w2 := emit w1 (.get url)
  match res with
  | .interrupt => (.kb, w2)
  | .failure => (.err, w2)
  | .ok body =>
    match (jsonpSliceFixture body).bind jp with
    | some d => (.ok d, w2)
    | none => (.err, w2)

/-- The `dir_path` built inside `save_standings_json`. -/
def save_dir_path (cfg : ScraperConfig) (row : SeasonRow) : String :=
  standings_dir_path cfg.dataDir row ((get_season_name_from_url row.url_resultados).getD "")

/-- The `json_path` built inside `save_standings_json`. -/
def save_json_path (cfg : ScraperConfig) (row : SeasonRow) : String :=
  pyJoin [save_dir_path cfg row, "standings.json"]

/-- `StandingsScraper.save_standings_json`, threading the instance counters:
`saltados` is bumped on the skip path, `exitos` after a successful write,
`fallos` on the exception path. -/
def save_standings_json (cfg : ScraperConfig) (jp : String → Option String)
    (row : SeasonRow) (skip_existing : Bool) (c : Counters) (w : World) :
    SaveResult × Counters × World :=
  if !strTruthy (get_torneo_id row.url_temporada) then (.ret false, c, w)
  else if !strTruthy (get_season_name_from_url row.url_resultados) then (.ret false, c, w)
  else
    let torneoId := (get_torneo_id row.url_temporada).getD ""
    let dirPath := save_dir_path cfg row
    if !pathExists w.fs dirPath then (.ret false, c, w)
    else
      let jsonPath := save_json_path cfg row
      if skip_existing && pathExists w.fs jsonPath then
        (.ret true, { c with saltados := c.saltados + 1 }, w)
      else
        match obtener_standings_json cfg jp torneoId w with
        | (.kb, w1) => (.kb, c, w1)
        | (.err, w1) => (.ret false, { c with fallos := c.fallos + 1 }, w1)
        | (.ok d, w1) =>
          if !dirExists w1.fs dirPath || dirExists w1.fs jsonPath then
            (.ret false, { c with fallos := c.fallos + 1 }, w1)
          else
            let w2 := emit { w1 with fs := writeFile w1.fs jsonPath d } (.write jsonPath)
            let c1 := { c with exitos := c.exitos + 1 }
            let (u, w3) := popRand w2
            (.ret true, c1, emit w3 (.sleep (cfg.minDelay + (cfg.maxDelay - cfg.minDelay) * u)))

/-- The row loop of `StandingsScraper.process_seasons`: the returned boolean
is discarded, `procesados` is bumped after each non-interrupted save, and a
`KeyboardInterrupt` breaks out. -/
def process_loop (cfg : ScraperConfig) (jp : String → Option String)
    (skip_existing : Bool) :
    List SeasonRow → Counters → World → Counters × World
  | [], c, w => (c, w)
  | row :: rest, c, w =>
    match save_standings_json cfg jp row skip_existing c w with
    | (.kb, c1, w1) => (c1, w1)
    | (.ret _, c1, w1) =>
      process_loop cfg jp skip_existing rest
        { c1 with procesados := c1.procesados + 1 } w1

/-- The statistics dictionary returned by `StandingsScraper.process_seasons`
(timing fields not modelled). -/
structure StandingsStats where
  total_seasons : Nat
  procesados : Nat
  exitosos : Nat
  saltados : Nat
  fallos : Nat
deriving DecidableEq

/-- `StandingsScraper.process_seasons`: reset the counters, filter, slice,
loop, then package the counters into the stats dictionary. -/
def process_seasons (cfg : ScraperConfig) (jp : String → Option String)
    (df : List (Nat × SeasonRow)) (filters : List (String × FilterVal))
    (skip_existing : Bool) (start_index : Nat) (limit : Option Nat)
    (w : World) : StandingsStats × World :=
  let dfF := apply_filters df filters
  let endIndex := match limit with
    | some l => if l ≠ 0 then min (start_index + l) dfF.length else dfF.length
    | none => dfF.length
  let toProcess := ((dfF.take endIndex).drop start_index).map Prod.snd
  let (c, w1) := process_loop cfg jp skip_existing toProcess Counters.zero w
  ({ total_seasons := toProcess.length, procesados := c.procesados,
     exitosos := c.exitos, saltados := c.saltados, fallos := c.fallos }, w1)

end StandingsScraper

/-- The inline path construction of `find_standings_resume_index`: `none`
when no season name can be extracted (the `continue` path). -/
def standings_resume_path (r : SeasonRow) : Option String :=
  match get_season_name_from_url r.url_resultados with
  | none => none
  | some sn =>
    if sn.data.isEmpty then none
    else some (pyJoin [StandingsScraper.standings_dir_path "data" r sn, "standings.json"])

/-- The row scan of `find_standings_resume_index`: rows without an
extractable season name are skipped (`continue`); otherwise the original
index label of the first row whose standings file is missing. -/
def find_standings_resume_scan (fs : FS) :
    List (Nat × SeasonRow) → Option Nat
  | [] => none
  | (lbl, r) :: t =>
    match standings_resume_path r with
    | none => find_standings_resume_scan fs t
    | some p => if !pathExists fs p then some lbl else find_standings_resume_scan fs t

/-- `scraping_standings.find_standings_resume_index`. -/
def find_standings_resume_index (fs : FS) (df : List (Nat × SeasonRow))
    (filters : List (String × FilterVal)) : Nat :=
  let dfF := apply_filters df filters
  (find_standings_resume_scan fs dfF).getD dfF.length

/-! ## `scraping_match_events.MatchEventScraper` -/

/-- One row of the matches DataFrame.  The code reads each column through
`row.get('A') or row.get('B')` for two spellings of the same column; the
model keeps one field for each logical column, `none` standing for an absent
or NaN cell. -/
structure EventRow where
  partido_id : Option String
  continente : Option String
  pais : Option String
  competicion : Option String
  id_competicion : Option String
  torneo_id : Option String
  temporada : Option String
  equipo_local : Option String
  equipo_visitante : Option String
  fecha : Option String
deriving DecidableEq

namespace MatchEventScraper

/-- Configuration of a `MatchEventScraper` (its delay is a fixed
`sleep_time`, not a random range). -/
structure Config where
  sdapiOutletKey : String
  callbackId : String
  baseUrl : String
  apiBaseUrl : String
  dataDir : String
  sleepTime : ℚ

/-- `MatchEventScraper()` with the constructor defaults. -/
def defaultConfig : Config :=
  { sdapiOutletKey := "ft1tiv1inq7v1sk3y9tv12yh5"
    callbackId := "W308c28470cb75c54dfa5b4fdc707239ca49953812"
    baseUrl := "https://www.scoresway.com"
    apiBaseUrl := "https://api.performfeeds.com/soccerdata/matchevent"
    dataDir := "data"
    sleepTime := 1 }

/-- `MatchEventScraper._build_api_url`. -/
def build_api_url (cfg : Config) (partidoId : String) : String :=
  cfg.apiBaseUrl ++ "/" ++ cfg.sdapiOutletKey ++ "/" ++ partidoId ++
    "?_rt=c&_lcl=en&_fmt=jsonp&sps=widgets&_clbk=" ++ cfg.callbackId

/-- The directory path of `MatchEventScraper._create_match_directory`. -/
def match_dir_path (cfg : Config) (r : EventRow) : String :=
  pyJoin [cfg.dataDir, sanitize_dir_name r.continente, sanitize_dir_name r.pais,
    sanitize_dir_name r.competicion ++ "_" ++ pyStr r.id_competicion,
    pyStr r.torneo_id, "matches"]

/-- `MatchEventScraper._build_filename`. -/
def build_filename (r : EventRow) : String :=
  let safeFecha := if strTruthy r.fecha then sanitize_dir_name (some (pyStr r.fecha))
    else "sin_fecha"
  pyStr r.partido_id ++ "_" ++ safeFecha ++ "_" ++
    sanitize_dir_name (some (pyStr r.equipo_local)) ++ "_" ++
    sanitize_dir_name (some (pyStr r.equipo_visitante)) ++ ".json"

/-- `MatchEventScraper.descargar_evento_partido`, threading the instance
counters.  `_create_match_directory` runs `os.makedirs(..., exist_ok=True)`
before the skip check, so the directory is created even for skipped rows. -/
def descargar_evento_partido (cfg : Config) (jp : String → Option String)
    (r : EventRow) (skip_existing : Bool) (c : Counters) (w : World) :
    SaveResult × Counters × World :=
  if !(strTruthy r.partido_id && strTruthy r.continente && strTruthy r.pais
      && strTruthy r.competicion && strTruthy r.id_competicion
      && strTruthy r.torneo_id) then
    (.ret false, c, w)
  else
    let dirPath := match_dir_path cfg r
    let w1 := { w with fs := mkDirs w.fs dirPath }
    let jsonPath := pyJoin [dirPath, build_filename r]
    if skip_existing && pathExists w1.fs jsonPath then
      (.ret true, { c with saltados := c.saltados + 1 }, w1)
    else
      let url := build_api_url cfg (pyStr r.partido_id)
      let (res, w2) := popHttp w1
      let w3 := emit w2 (.get url)
      match res with
      | .interrupt => (.kb, c, w3)
      | .failure => (.ret false, { c with fallos := c.fallos + 1 }, w3)
      | .ok body =>
        match (jsonpSliceEvents body).bind jp with
        | none => (.ret false, { c with fallos := c.fallos + 1 }, w3)
        | some d =>
          if dirExists w3.fs jsonPath then
            (.ret false, { c with fallos := c.fallos + 1 }, w3)
          else
            let w4 := emit { w3 with fs := writeFile w3.fs jsonPath d } (.write jsonPath)
            (.ret true, { c with exitos := c.exitos + 1 },
              emit w4 (.sleep cfg.sleepTime))

/-- The row loop of `MatchEventScraper.descargar_eventos_masivo`, with the
same break-on-interrupt shape as the standings loop. -/
def download_loop (cfg : Config) (jp : String → Option String)
    (skip_existing : Bool) :
    List EventRow → Counters → World → Counters × World
  | [], c, w => (c, w)
  | row :: rest, c, w =>
    match descargar_evento_partido cfg jp row skip_existing c w with
    | (.kb, c1, w1) => (c1, w1)
    | (.ret _, c1, w1) =>
      download_loop cfg jp skip_existing rest
        { c1 with procesados := c1.procesados + 1 } w1

/-- The matches DataFrame columns (underscore spelling). -/
def eventColumns : List String :=
  ["Partido_ID", "Continente", "Pais", "Competicion", "ID_Competicion",
   "Torneo_ID", "Temporada", "Equipo_Local", "Equipo_Visitante", "Fecha"]

/-- Column lookup on a match row. -/
def eventCol (r : EventRow) (c : String) : Option String :=
  if c = "Partido_ID" then r.partido_id
  else if c = "Continente" then r.continente
  else if c = "Pais" then r.pais
  else if c = "Competicion" then r.competicion
  else if c = "ID_Competicion" then r.id_competicion
  else if c = "Torneo_ID" then r.torneo_id
  else if c = "Temporada" then r.temporada
  else if c = "Equipo_Local" then r.equipo_local
  else if c = "Equipo_Visitante" then r.equipo_visitante
  else if c = "Fecha" then r.fecha
  else none

/-- The `column_variants` list of `MatchEventScraper._apply_filters`. -/
def column_variants (c : String) : List String :=
  [c, pyTitle (pyReplaceChar '_' ' ' c), pyLower (pyReplaceChar ' ' '_' c),
   pyReplaceChar ' ' '_' (pyTitle (pyReplaceChar '_' ' ' c))]

/-- `MatchEventScraper._apply_filters`: resolve each filter key through its
spelling variants; unresolvable keys are ignored.  A NaN/absent cell never
equals a filter value. -/
def apply_filters_events (df : List EventRow)
    (filters : List (String × FilterVal)) : List EventRow :=
  filters.foldl (fun d cv =>
    match (column_variants cv.1).find? (fun v => eventColumns.contains v) with
    | some col => d.filter fun r =>
        match eventCol r col with
        | some s => filterMatches s cv.2
        | none => false
    | none => d) df

/-- The statistics dictionary of `descargar_eventos_masivo`
(timing fields not modelled). -/
structure EventStats where
  total_partidos : Nat
  procesados : Nat
  exitosos : Nat
  saltados : Nat
  fallos : Nat
deriving DecidableEq

/-- `MatchEventScraper.descargar_eventos_masivo`. -/
def descargar_eventos_masivo (cfg : Config) (jp : String → Option String)
    (df : List EventRow) (filters : List (String × FilterVal))
    (skip_existing : Bool) (start_index : Nat) (limit : Option Nat)
    (w : World) : EventStats × World :=
  let dfF := apply_filters_events df filters
  let endIndex := match limit with
    | some l => if l ≠ 0 then min (start_index + l) dfF.length else dfF.length
    | none => dfF.length
  let toProcess := (dfF.take endIndex).drop start_index
  let (c, w1) := download_loop cfg jp skip_existing toProcess Counters.zero w
  ({ total_partidos := toProcess.length, procesados := c.procesados,
     exitosos := c.exitos, saltados := c.saltados, fallos := c.fallos }, w1)

end MatchEventScraper

/-! ## `src/utils/filesystem.py` (UI directory enumeration) -/

/-- Lexicographic comparison of code-point lists (Python `str` ordering). -/
def charListLe : List Char → List Char → Bool
  | [], _ => true
  | _ :: _, [] => false
  | a :: as, b :: bs => if a < b then true else if a = b then charListLe as bs else false

/-- Python `sorted` on strings. -/
def sortStrings (l : List String) : List String :=
  l.mergeSort fun a b => charListLe a.data b.data

/-- `Path.iterdir`: the names of the immediate entries of directory `p`
(every recorded file or directory under `p` contributes its first path
segment below `p`, as on a real filesystem). -/
def childNames (fs : FS) (p : String) : List String :=
  ((fs.dirs ++ fs.files.map Prod.fst).filterMap fun q =>
    if (p ++ "/").data.isPrefixOf q.data then
      some (⟨(q.data.drop (p.data.length + 1)).takeWhile (· ≠ '/')⟩ : String)
    else none).dedup

/-- `sorted(p.name for p in path.iterdir() if p.is_dir())`. -/
def childDirNames (fs : FS) (p : String) : List String :=
  sortStrings ((childNames fs p).filter fun n => dirExists fs (p ++ "/" ++ n))

/-- `filesystem.BASE_PATH`. -/
def BASE_PATH : String := "scrap/data"

/-- `filesystem.get_continentes`. -/
def get_continentes (fs : FS) : List String :=
  if !pathExists fs BASE_PATH then []
  else childDirNames fs BASE_PATH

/-- `filesystem.get_paises`. -/
def get_paises (fs : FS) (continente : String) : List String :=
  if continente.data.isEmpty then []
  else
    let path := pyJoin [BASE_PATH, continente]
    if !pathExists fs path then []
    else childDirNames fs path

/-- `filesystem.get_competiciones`. -/
def get_competiciones (fs : FS) (continente pais : String) : List String :=
  if continente.data.isEmpty || pais.data.isEmpty then []
  else
    let path := pyJoin [BASE_PATH, continente, pais]
    if !pathExists fs path then []
    else childDirNames fs path

/-- `filesystem.get_temporadas`. -/
def get_temporadas (fs : FS) (continente pais competicion : String) : List String :=
  if continente.data.isEmpty || pais.data.isEmpty || competicion.data.isEmpty then []
  else
    let path := pyJoin [BASE_PATH, continente, pais, competicion]
    if !pathExists fs path then []
    else childDirNames fs path

/-! ## Specification-side definitions

Definitions following the words of the specification's claims, to be
compared against the code model above. -/

/-- Index of the first occurrence of `c` (spec side). -/
def firstIdx? (c : Char) : List Char → Option Nat
  | [] => none
  | x :: xs => if x = c then some 0 else (firstIdx? c xs).map (· + 1)

/-- Index of the last occurrence of `c` (spec side). -/
def lastIdx? (c : Char) : List Char → Option Nat
  | [] => none
  | x :: xs =>
    match lastIdx? c xs with
    | some k => some (k + 1)
    | none => if x = c then some 0 else none

/-- The JSONP unwrap as the specification words it: take the substring
strictly between the first `(` and the last `)` of the body and parse it as
JSON; when no `(` occurs before a later `)`, the operation errors. -/
def specJsonpUnwrap (jp : String → Option String) (content : String) : Option String :=
  match firstIdx? '(' content.data, lastIdx? ')' content.data with
  | some i, some j => if i < j then jp (pySlice content (i + 1) j) else none
  | _, _ => none

/-- The code-side composite of `obtener_fixture_json` /
`obtener_standings_json`: JSONP slicing followed by `json.loads`. -/
def fixtureUnwrap (jp : String → Option String) (content : String) : Option String :=
  (jsonpSliceFixture content).bind jp

/-- The code-side composite of `MatchEventScraper._extract_json_from_jsonp`. -/
def eventsUnwrap (jp : String → Option String) (content : String) : Option String :=
  (jsonpSliceEvents content).bind jp

/-- A row counts as missing for the fixture resume scan when its path cannot
be built (the bare `except` path) or the fixture file is absent. -/
def fixture_row_missing (fs : FS) (r : SeasonRow) : Bool :=
  match FixtureScraper.get_json_path FixtureScraper.defaultConfig r with
  | none => true
  | some p => !pathExists fs p

/-- A row counts as missing for the standings resume scan when its path can
be built and the standings file is absent (rows without a season name are
skipped by the scan). -/
def standings_row_missing (fs : FS) (r : SeasonRow) : Bool :=
  match standings_resume_path r with
  | none => false
  | some p => !pathExists fs p

/-- The resume index as claim C1 words it: the position, within the filtered
rows scanned in order, of the first row whose target file is missing; the
number of filtered rows when all are present. -/
def claimed_resume_index (missing : SeasonRow → Bool)
    (df : List (Nat × SeasonRow)) (filters : List (String × FilterVal)) : Nat :=
  (apply_filters df filters).findIdx fun pr => missing pr.2

/-- No two consecutive underscores. -/
def noDoubleUS : List Char → Bool
  | a :: b :: t => !(a = '_' && b = '_') && noDoubleUS (b :: t)
  | _ => true

/-- Neither the first nor the last character is whitespace. -/
def noBoundarySpace (l : List Char) : Bool :=
  (match l.head? with
   | some c => !isPySpace c
   | none => true)
  && (match l.getLast? with
      | some c => !isPySpace c
      | none => true)

/-- The cleanliness predicate of claim C9: no problematic character, no
boundary whitespace, no doubled underscore. -/
def cleanDirName (s : String) : Bool :=
  s.data.all (fun c => !problematicChars.contains c)
    && noBoundarySpace s.data && noDoubleUS s.data

/-- No pending `KeyboardInterrupt` in the HTTP queue. -/
def noInterrupt (l : List HttpResult) : Bool :=
  l.all fun r =>
    match r with
    | .interrupt => false
    | _ => true

/-- Whether the fixture row loop stops early: only a `KeyboardInterrupt`
raised inside an iteration does that. -/
def fixture_loop_breaks (cfg : ScraperConfig) (jp : String → Option String)
    (skip_existing : Bool) : List SeasonRow → World → Bool
  | [], _ => false
  | row :: rest, w =>
    match FixtureScraper.save_fixture_json cfg jp row skip_existing w with
    | (.kb, _) => true
    | (.ret _, w1) => fixture_loop_breaks cfg jp skip_existing rest w1

/-- Whether the standings row loop stops early. -/
def standings_loop_breaks (cfg : ScraperConfig) (jp : String → Option String)
    (skip_existing : Bool) : List SeasonRow → Counters → World → Bool
  | [], _, _ => false
  | row :: rest, c, w =>
    match StandingsScraper.save_standings_json cfg jp row skip_existing c w with
    | (.kb, _, _) => true
    | (.ret _, c1, w1) =>
      standings_loop_breaks cfg jp skip_existing rest
        { c1 with procesados := c1.procesados + 1 } w1

/-- Whether the match-events row loop stops early. -/
def events_loop_breaks (cfg : MatchEventScraper.Config) (jp : String → Option String)
    (skip_existing : Bool) : List EventRow → Counters → World → Bool
  | [], _, _ => false
  | row :: rest, c, w =>
    match MatchEventScraper.descargar_evento_partido cfg jp row skip_existing c w with
    | (.kb, _, _) => true
    | (.ret _, c1, w1) =>
      events_loop_breaks cfg jp skip_existing rest
        { c1 with procesados := c1.procesados + 1 } w1

/-- Claim C7's separation property: between any two consecutive `get` events
of a trace there is a `sleep` event.  The scan tracks whether a sleep has
occurred since the previous request. -/
def requestsSeparatedGo : Bool → List Event → Bool
  | _, [] => true
  | sleepSeen, Event.get _ :: t => sleepSeen && requestsSeparatedGo false t
  | _, Event.sleep _ :: t => requestsSeparatedGo true t
  | sleepSeen, Event.write _ :: t => requestsSeparatedGo sleepSeen t

/-- Claim C7's separation property over a whole trace. -/
def requestsSeparated (tr : List Event) : Bool := requestsSeparatedGo true tr

/-- The shapes a single `save_*` call may append to the trace: nothing
(invalid row or skip fast path), a lone request (failure, interrupt or
unparseable body), or a request followed by a write and a sleep whose
duration lies in `[min_delay, max_delay]` (successful download). -/
def traceDeltaShape (mn mx : ℚ) : List Event → Bool
  | [] => true
  | [Event.get _] => true
  | [Event.get _, Event.write _, Event.sleep d] => decide (mn ≤ d) && decide (d ≤ mx)
  | _ => false

/-! ## Concrete instances used by witnesses and counterexamples -/

/-- A concrete stand-in for `json.loads`: a parser that rejects exactly the
empty document (any JSON grammar rejects the empty string). -/
def jp0 : String → Option String := fun s => if s.data.isEmpty then none else some s

/-- A season row whose URLs yield both a tournament id and a season name. -/
def rowSpain : SeasonRow :=
  { continente := "Europe", pais := "Spain", competicion := "LaLiga",
    id_competicion := "5", temporada := "2024",
    url_temporada := "https://x.com/soccer/spain/la-liga-2024/results",
    url_resultados := "https://x.com/soccer/spain/la-liga-2024/results" }

/-- Like `rowSpain` but `url_temporada` yields no tournament id. -/
def rowNoTorneo : SeasonRow := { rowSpain with url_temporada := "https://x.com/nope" }

/-- Like `rowSpain` but on another continent (dropped by the C1 filter). -/
def rowAmerica : SeasonRow := { rowSpain with continente := "America" }

/-- Like `rowSpain` but with a results URL from which no season name can be
extracted. -/
def rowNoSeason : SeasonRow := { rowSpain with url_resultados := "https://x.com/a" }

/-- The season directory of `rowSpain` exists; its fixture and standings
files both exist. -/
def fsSpainFull : FS :=
  { files := [("data/Europe/Spain/LaLiga_5/la-liga-2024/fixture.json", "old"),
              ("data/Europe/Spain/LaLiga_5/la-liga-2024/standings.json", "old")],
    dirs := ["data/Europe/Spain/LaLiga_5/la-liga-2024"] }

/-- The season directory of `rowSpain` exists but holds no files. -/
def fsSpainDirOnly : FS :=
  { files := [], dirs := ["data/Europe/Spain/LaLiga_5/la-liga-2024"] }

/-- An empty filesystem. -/
def fsEmpty : FS := { files := [], dirs := [] }

/-- A quiet world over a given filesystem. -/
def quietWorld (fs : FS) : World := { fs := fs, http := [], rand := [], trace := [] }

/-- A world for a two-row fixture run: the first request fails, the second
succeeds. -/
def wTwoRuns : World :=
  { fs := fsSpainDirOnly, http := [.failure, .ok "cb(42)"], rand := [mkRat 1 2], trace := [] }

/-- A world whose first HTTP request is hit by a `KeyboardInterrupt`. -/
def wInterrupt : World :=
  { fs := fsSpainDirOnly, http := [.interrupt, .ok "cb(42)"], rand := [mkRat 1 2], trace := [] }

/-- A world whose single pending request fails. -/
def wFailing : World :=
  { fs := fsSpainDirOnly, http := [.failure], rand := [mkRat 1 2], trace := [] }

/-- A world whose single pending request succeeds with a JSONP body. -/
def wOneOk : World :=
  { fs := fsSpainDirOnly, http := [.ok "cb(42)"], rand := [mkRat 1 2], trace := [] }

/-- A filesystem holding part of the UI tree under `scrap/data`. -/
def fsUI : FS :=
  { files := [], dirs := ["scrap/data/Europe", "scrap/data/Europe/Spain"] }

/-- The two-row DataFrame (labels 0 and 1) used by the C7 counterexample. -/
def dfTwoSpain : List (Nat × SeasonRow) := [(0, rowSpain), (1, rowSpain)]

/-- The DataFrame used by the C1 counterexample: the filtered subset starts
at label 1. -/
def dfMixed : List (Nat × SeasonRow) := [(0, rowAmerica), (1, rowSpain)]

/-- The C1 counterexample filter. -/
def filtersEurope : List (String × FilterVal) := [("continente", FilterVal.one "Europe")]

/-- A match row with complete data. -/
def eventRowFull : EventRow :=
  { partido_id := some "m1", continente := some "Europe", pais := some "Spain",
    competicion := some "LaLiga", id_competicion := some "5",
    torneo_id := some "t1", temporada := some "2024",
    equipo_local := some "TeamA", equipo_visitante := some "TeamB",
    fecha := some "2024-01-01" }

/-- The world after one consumed HTTP request against `url` that produced no
further effect: the queue lost its head and the request was recorded. -/
def afterGet (w : World) (url : String) : World :=
  { w with http := w.http.tail, trace := w.trace ++ [Event.get url] }

/-- The world after one successful download: the request was consumed and
recorded, the payload was written at `path`, one random draw was consumed
for a sleep of duration `d`. -/
def afterDownload (w : World) (url path payload : String) (d : ℚ) : World :=
  { fs := writeFile w.fs path payload,
    http := w.http.tail,
    rand := w.rand.tail,
    trace := w.trace ++ [Event.get url, Event.write path, Event.sleep d] }

/-- A plain path segment: nonempty, neither starting nor ending with `/`. -/
def plainSeg (s : String) : Bool :=
  !s.data.isEmpty && !startsSlash s && !endsSlash s

/-- Left-nested slash concatenation — the path shape the specification's
directory convention `data/<continent>/<country>/<competition>_<id>/<season>/
<artifact>.json` denotes. -/
def slashJoin (acc : String) : List String → String
  | [] => acc
  | b :: rest => slashJoin (acc ++ "/" ++ b) rest

/-- The pending HTTP outcome makes the fixture/standings fetch raise: the
request itself fails (or the queue is exhausted, modelled as failure), or
the response body does not parse. -/
def fetch_fails (jp : String → Option String) : List HttpResult → Bool
  | [] => true
  | .failure :: _ => true
  | .interrupt :: _ => false
  | .ok body :: _ => ((jsonpSliceFixture body).bind jp).isNone

/-! # Proofs

## Helper lemmas about `sanitize_dir_name` -/

theorem foldl_charMap (cs s : List Char) :
    cs.foldl (fun acc c => acc.map fun x => if x = c then '_' else x) s
      = s.map fun x => cs.foldl (fun y c => if y = c then '_' else y) x := by
  induction cs generalizing s with
  | nil => simp
  | cons c cs ih =>
    simp only [List.foldl_cons]
    rw [ih, List.map_map]
    rfl

theorem charFold_of_not_mem (cs : List Char) (x : Char) (hx : x ∉ cs) :
    cs.foldl (fun y c => if y = c then '_' else y) x = x := by
  induction cs with
  | nil => rfl
  | cons c cs ih =>
    simp only [List.mem_cons, not_or] at hx
    simp only [List.foldl_cons, if_neg hx.1]
    exact ih hx.2

theorem charFold_underscore (cs : List Char) (h : '_' ∉ cs) :
    cs.foldl (fun y c => if y = c then '_' else y) '_' = '_' :=
  charFold_of_not_mem cs '_' h

theorem charFold_of_mem (cs : List Char) (x : Char) (hx : x ∈ cs) (h : '_' ∉ cs) :
    cs.foldl (fun y c => if y = c then '_' else y) x = '_' := by
  induction cs with
  | nil => cases hx
  | cons c cs ih =>
    simp only [List.mem_cons, not_or] at h
    simp only [List.foldl_cons]
    by_cases hxc : x = c
    · rw [if_pos hxc]
      exact charFold_of_not_mem cs '_' h.2
    · rw [if_neg hxc]
      rcases List.mem_cons.mp hx with h1 | h2
      · exact absurd h1 hxc
      · exact ih h2 h.2

theorem sanChar_eq (x : Char) :
    problematicChars.foldl (fun y c => if y = c then '_' else y) x
      = if problematicChars.contains x then '_' else x := by
  by_cases hx : x ∈ problematicChars
  · rw [charFold_of_mem _ _ hx (by decide), if_pos (List.elem_eq_true_of_mem hx)]
  · rw [charFold_of_not_mem _ _ hx]
    rw [if_neg]
    intro hc
    exact hx (List.mem_of_elem_eq_true hc)

theorem mem_replaceProblematic (s : List Char) :
    ∀ x ∈ replaceProblematic s, problematicChars.contains x = false := by
  intro x hx
  rw [replaceProblematic, foldl_charMap] at hx
  obtain ⟨y, _, rfl⟩ := List.mem_map.mp hx
  rw [sanChar_eq]
  by_cases hy : problematicChars.contains y
  · rw [if_pos hy]; decide
  · rw [if_neg hy]; exact Bool.eq_false_iff.mpr hy

theorem replaceProblematic_eq_self (s : List Char)
    (h : ∀ x ∈ s, problematicChars.contains x = false) :
    replaceProblematic s = s := by
  rw [replaceProblematic, foldl_charMap]
  conv_rhs => rw [← List.map_id s]
  refine List.map_congr_left fun x hx => ?_
  have hcf := h x hx
  rw [sanChar_eq, hcf, if_neg Bool.false_ne_true]
  rfl

theorem head?_dropWhile_sat (p : Char → Bool) (l : List Char) :
    ∀ c, (l.dropWhile p).head? = some c → p c = false := by
  induction l with
  | nil => intro c h; cases h
  | cons a t ih =>
    intro c h
    by_cases ha : p a
    · rw [List.dropWhile_cons_of_pos ha] at h
      exact ih c h
    · rw [List.dropWhile_cons_of_neg ha] at h
      cases h
      exact Bool.eq_false_iff.mpr ha

theorem dropWhile_append_eq (p : Char → Bool) (l : List Char) :
    ∃ t, t ++ l.dropWhile p = l := by
  induction l with
  | nil => exact ⟨[], rfl⟩
  | cons a t ih =>
    by_cases ha : p a
    · obtain ⟨u, hu⟩ := ih
      exact ⟨a :: u, by rw [List.dropWhile_cons_of_pos ha, List.cons_append, hu]⟩
    · exact ⟨[], by rw [List.dropWhile_cons_of_neg ha, List.nil_append]⟩

theorem dropWhile_eq_self_of_head (p : Char → Bool) (l : List Char)
    (h : ∀ c, l.head? = some c → p c = false) : l.dropWhile p = l := by
  cases l with
  | nil => rfl
  | cons a t =>
    have ha := h a rfl
    rw [List.dropWhile_cons_of_neg (by rw [ha]; exact Bool.false_ne_true)]

theorem mem_dropWhile (p : Char → Bool) (l : List Char) :
    ∀ c ∈ l.dropWhile p, c ∈ l := by
  obtain ⟨t, ht⟩ := dropWhile_append_eq p l
  intro c hc
  rw [← ht]
  exact List.mem_append_right t hc

theorem pyStrip_head (l : List Char) :
    ∀ c, (pyStrip l).head? = some c → isPySpace c = false := by
  intro c h
  rw [pyStrip] at h
  set t := l.dropWhile isPySpace with ht
  obtain ⟨u, hu⟩ := dropWhile_append_eq isPySpace t.reverse
  have hne : t.reverse.dropWhile isPySpace ≠ [] := by
    intro he
    rw [he] at h
    cases h
  have : t.head? = some c := by
    have h2 : (t.reverse.dropWhile isPySpace).reverse.head? = some c := h
    have h3 : t.reverse.dropWhile isPySpace
        = ((t.reverse.dropWhile isPySpace).reverse).reverse := by
      rw [List.reverse_reverse]
    have h4 : t = ((t.reverse.dropWhile isPySpace).reverse ++ u.reverse) := by
      have := congrArg List.reverse hu
      rw [List.reverse_append, List.reverse_reverse] at this
      exact this.symm
    rw [h4, List.head?_append_of_ne_nil]
    · exact h2
    · intro he
      exact hne (by rw [h3, he]; rfl)
  exact head?_dropWhile_sat isPySpace l c this

theorem pyStrip_getLast (l : List Char) :
    ∀ c, (pyStrip l).getLast? = some c → isPySpace c = false := by
  intro c h
  rw [pyStrip, List.getLast?_reverse] at h
  exact head?_dropWhile_sat isPySpace _ c h

theorem pyStrip_eq_self (l : List Char)
    (h1 : ∀ c, l.head? = some c → isPySpace c = false)
    (h2 : ∀ c, l.getLast? = some c → isPySpace c = false) : pyStrip l = l := by
  rw [pyStrip, dropWhile_eq_self_of_head isPySpace l h1]
  rw [dropWhile_eq_self_of_head isPySpace l.reverse, List.reverse_reverse]
  intro c hc
  rw [List.head?_reverse] at hc
  exact h2 c hc

theorem mem_pyStrip (l : List Char) : ∀ c ∈ pyStrip l, c ∈ l := by
  intro c hc
  rw [pyStrip, List.mem_reverse] at hc
  have := mem_dropWhile isPySpace _ c hc
  rw [List.mem_reverse] at this
  exact mem_dropWhile isPySpace l c this

theorem collapse_ne_nil (l : List Char) (h : l ≠ []) : collapseUnderscores l ≠ [] := by
  induction l with
  | nil => exact absurd rfl h
  | cons a t ih =>
    cases t with
    | nil => simp [collapseUnderscores]
    | cons b t' =>
      rw [collapseUnderscores]
      by_cases hab : a = '_' && b = '_'
      · rw [if_pos hab]
        exact ih (by simp)
      · rw [if_neg hab]
        simp

theorem collapse_head? (l : List Char) :
    (collapseUnderscores l).head? = l.head?
      ∨ (l.head? = some '_' ∧ (collapseUnderscores l).head? = some '_') := by
  induction l with
  | nil => left; rfl
  | cons a t ih =>
    cases t with
    | nil => left; rfl
    | cons b t' =>
      rw [collapseUnderscores]
      by_cases hab : a = '_' && b = '_'
      · rw [if_pos hab]
        have hab' := Bool.and_eq_true_iff.mp hab
        have ha' : a = '_' := of_decide_eq_true hab'.1
        have hb' : b = '_' := of_decide_eq_true hab'.2
        right
        refine ⟨by rw [ha']; rfl, ?_⟩
        rcases ih with h | ⟨h1, h2⟩
        · rw [h]
          simp [hb']
        · exact h2
      · rw [if_neg hab]
        left
        rfl

theorem collapse_getLast? (l : List Char) :
    (collapseUnderscores l).getLast? = l.getLast? := by
  induction l with
  | nil => rfl
  | cons a t ih =>
    cases t with
    | nil => rfl
    | cons b t' =>
      rw [collapseUnderscores]
      by_cases hab : a = '_' && b = '_'
      · rw [if_pos hab, ih, List.getLast?_cons_cons]
      · rw [if_neg hab]
        have hne := collapse_ne_nil (b :: t') (by simp)
        cases hcp : collapseUnderscores (b :: t') with
        | nil => exact absurd hcp hne
        | cons y ys =>
          rw [List.getLast?_cons_cons, ← hcp, ih, List.getLast?_cons_cons]

theorem mem_collapse (l : List Char) : ∀ c ∈ collapseUnderscores l, c ∈ l := by
  induction l with
  | nil => intro c hc; cases hc
  | cons a t ih =>
    cases t with
    | nil => intro c hc; exact hc
    | cons b t' =>
      rw [collapseUnderscores]
      by_cases hab : a = '_' && b = '_'
      · rw [if_pos hab]
        intro c hc
        exact List.mem_cons_of_mem a (ih c hc)
      · rw [if_neg hab]
        intro c hc
        rcases List.mem_cons.mp hc with h | h
        · exact h ▸ List.mem_cons_self a _
        · exact List.mem_cons_of_mem a (ih c h)

theorem noDouble_cons (a : Char) (l : List Char) :
    noDoubleUS (a :: l)
      = ((match l.head? with
          | some y => !(a = '_' && y = '_')
          | none => true) && noDoubleUS l) := by
  cases l with
  | nil => rfl
  | cons y ys => rfl

theorem collapse_noDouble (l : List Char) :
    noDoubleUS (collapseUnderscores l) = true := by
  induction l with
  | nil => rfl
  | cons a t ih =>
    cases t with
    | nil => rfl
    | cons b t' =>
      rw [collapseUnderscores]
      by_cases hab : a = '_' && b = '_'
      · rw [if_pos hab]
        exact ih
      · rw [if_neg hab]
        rw [noDouble_cons, Bool.and_eq_true_iff]
        refine ⟨?_, ih⟩
        rcases collapse_head? (b :: t') with h | ⟨h1, h2⟩
        · rw [h]
          simp only [List.head?_cons]
          simp only [Bool.and_eq_true_iff, decide_eq_true_iff] at hab
          by_cases ha : a = '_'
          · have hb : ¬ b = '_' := fun hb => hab ⟨ha, hb⟩
            simp [ha, hb]
          · simp [ha]
        · have hb : b = '_' := by
            have := h1
            simp only [List.head?_cons, Option.some_inj] at this
            exact this
          simp only [Bool.and_eq_true_iff, decide_eq_true_iff] at hab
          have ha : ¬ a = '_' := fun ha => hab ⟨ha, hb⟩
          rw [h2]
          simp [ha]

theorem collapse_eq_self (l : List Char) (h : noDoubleUS l = true) :
    collapseUnderscores l = l := by
  induction l with
  | nil => rfl
  | cons a t ih =>
    cases t with
    | nil => rfl
    | cons b t' =>
      cases hq : (a = '_' && b = '_') with
      | true =>
        exfalso
        have hf : noDoubleUS (a :: b :: t') = false := by
          rw [noDoubleUS, hq]
          rfl
        rw [hf] at h
        exact Bool.false_ne_true h
      | false =>
        have h2 : noDoubleUS (b :: t') = true := by
          rw [noDoubleUS, hq] at h
          simpa using h
        rw [collapseUnderscores, if_neg (by rw [hq]; exact Bool.false_ne_true), ih h2]

theorem sanitize_some_clean (s : String) :
    cleanDirName (sanitize_dir_name (some s)) = true := by
  set inner := replaceProblematic s.data with hi
  set out := collapseUnderscores (pyStrip inner) with ho
  have hmem : ∀ c ∈ out, problematicChars.contains c = false := fun c hc =>
    mem_replaceProblematic s.data c (mem_pyStrip inner c (mem_collapse _ c hc))
  have hhead : ∀ c, out.head? = some c → isPySpace c = false := by
    intro c hc
    rcases collapse_head? (pyStrip inner) with h | ⟨h1, h2⟩
    · refine pyStrip_head inner c ?_
      rw [← h]
      exact hc
    · rw [ho, h2] at hc
      cases hc
      decide
  have hlast : ∀ c, out.getLast? = some c → isPySpace c = false := by
    intro c hc
    rw [ho, collapse_getLast?] at hc
    exact pyStrip_getLast inner c hc
  have hnd : noDoubleUS out = true := collapse_noDouble _
  show cleanDirName ⟨out⟩ = true
  rw [cleanDirName]
  rw [Bool.and_eq_true_iff, Bool.and_eq_true_iff]
  refine ⟨⟨?_, ?_⟩, hnd⟩
  · rw [List.all_eq_true]
    intro c hc
    rw [hmem c hc]
    rfl
  · rw [noBoundarySpace, Bool.and_eq_true_iff]
    constructor
    · cases hh : out.head? with
      | none => rfl
      | some c =>
        have := hhead c hh
        simp [this]
    · cases hl : out.getLast? with
      | none => rfl
      | some c =>
        have := hlast c hl
        simp [this]

/-- Claim C9: every output of `sanitize_dir_name` on a string contains none
of the problematic characters, has no boundary whitespace and no doubled
underscore, and the `None` input maps to `"unnamed"`.  (The function is a
total Lean function, so it cannot raise.) -/
theorem C9_sanitize_output_clean :
    (∀ s : String, cleanDirName (sanitize_dir_name (some s)) = true)
      ∧ sanitize_dir_name none = "unnamed" :=
  ⟨sanitize_some_clean, rfl⟩

/-- Claim C8: `sanitize_dir_name` is idempotent on strings. -/
theorem C8_sanitize_idempotent (s : String) :
    sanitize_dir_name (some (sanitize_dir_name (some s))) = sanitize_dir_name (some s) := by
  have hclean := sanitize_some_clean s
  set t := sanitize_dir_name (some s) with ht
  rw [cleanDirName, Bool.and_eq_true_iff, Bool.and_eq_true_iff] at hclean
  obtain ⟨⟨hall, hbound⟩, hnd⟩ := hclean
  rw [noBoundarySpace, Bool.and_eq_true_iff] at hbound
  obtain ⟨hh, hl⟩ := hbound
  show (⟨collapseUnderscores (pyStrip (replaceProblematic t.data))⟩ : String) = t
  rw [replaceProblematic_eq_self t.data ?hc]
  case hc =>
    intro x hx
    have hb := List.all_eq_true.mp hall x hx
    cases hq : problematicChars.contains x with
    | false => rfl
    | true =>
      rw [hq] at hb
      exact absurd hb (by decide)
  rw [pyStrip_eq_self t.data ?h1 ?h2]
  case h1 =>
    intro c hc
    rw [hc] at hh
    have hh2 : (!isPySpace c) = true := hh
    cases hq : isPySpace c with
    | false => rfl
    | true =>
      rw [hq] at hh2
      exact absurd hh2 (by decide)
  case h2 =>
    intro c hc
    rw [hc] at hl
    have hl2 : (!isPySpace c) = true := hl
    cases hq : isPySpace c with
    | false => rfl
    | true =>
      rw [hq] at hl2
      exact absurd hl2 (by decide)
  rw [collapse_eq_self t.data hnd]

/-! ## Helper lemmas about the JSONP unwrap -/

theorem pyFindAux_eq (c : Char) (l : List Char) (i : Int) :
    pyFindAux c l i = (match firstIdx? c l with
      | some k => i + k
      | none => -1) := by
  induction l generalizing i with
  | nil => rfl
  | cons x xs ih =>
    rw [pyFindAux, firstIdx?]
    by_cases hx : x = c
    · rw [if_pos hx, if_pos hx]
      simp
    · rw [if_neg hx, if_neg hx, ih]
      cases firstIdx? c xs with
      | none => rfl
      | some k =>
        simp only [Option.map_some']
        push_cast
        ring

theorem pyRFindAux_eq (c : Char) (l : List Char) (i best : Int) :
    pyRFindAux c l i best = (match lastIdx? c l with
      | some k => i + k
      | none => best) := by
  induction l generalizing i best with
  | nil => rfl
  | cons x xs ih =>
    rw [pyRFindAux, lastIdx?, ih]
    cases lastIdx? c xs with
    | some k =>
      simp only []
      push_cast
      ring
    | none =>
      by_cases hx : x = c
      · rw [if_pos hx, if_pos hx]
        simp
      · rw [if_neg hx, if_neg hx]

theorem pyFind_none (s : String) (c : Char) (h : firstIdx? c s.data = none) :
    pyFind s c = -1 := by
  rw [pyFind, pyFindAux_eq, h]

theorem pyFind_some (s : String) (c : Char) (k : Nat)
    (h : firstIdx? c s.data = some k) : pyFind s c = k := by
  rw [pyFind, pyFindAux_eq, h]
  simp

theorem pyRFind_none (s : String) (c : Char) (h : lastIdx? c s.data = none) :
    pyRFind s c = -1 := by
  rw [pyRFind, pyRFindAux_eq, h]

theorem pyRFind_some (s : String) (c : Char) (k : Nat)
    (h : lastIdx? c s.data = some k) : pyRFind s c = k := by
  rw [pyRFind, pyRFindAux_eq, h]
  simp

theorem pySlice_self (s : String) (k : Nat) : pySlice s k k = "" := by
  rw [pySlice]
  have h : (s.data.take k).drop k = [] := by
    apply List.drop_eq_nil_of_le
    rw [List.length_take]
    omega
  rw [h]

theorem specJsonpUnwrap_eq (content : String) (jp : String → Option String)
    (i j : Nat) (hf : firstIdx? '(' content.data = some i)
    (hl : lastIdx? ')' content.data = some j) :
    specJsonpUnwrap jp content
      = if i < j then jp (pySlice content (i + 1) j) else none := by
  rw [specJsonpUnwrap, hf, hl]

theorem specJsonpUnwrap_noFirst (content : String) (jp : String → Option String)
    (hf : firstIdx? '(' content.data = none) :
    specJsonpUnwrap jp content = none := by
  rw [specJsonpUnwrap, hf]

theorem specJsonpUnwrap_noLast (content : String) (jp : String → Option String)
    (i : Nat) (hf : firstIdx? '(' content.data = some i)
    (hl : lastIdx? ')' content.data = none) :
    specJsonpUnwrap jp content = none := by
  rw [specJsonpUnwrap, hf, hl]

theorem fixtureUnwrap_eq_spec (content : String) (jp : String → Option String)
    (hjp : jp "" = none) :
    fixtureUnwrap jp content = specJsonpUnwrap jp content := by
  rw [fixtureUnwrap, jsonpSliceFixture]
  cases hf : firstIdx? '(' content.data with
  | none =>
    rw [pyFind_none content '(' hf, specJsonpUnwrap_noFirst content jp hf,
      if_pos (Or.inl (by decide))]
    rfl
  | some i =>
    rw [pyFind_some content '(' i hf]
    cases hl : lastIdx? ')' content.data with
    | none =>
      rw [pyRFind_none content ')' hl, specJsonpUnwrap_noLast content jp i hf hl,
        if_pos (Or.inr (by omega))]
      rfl
    | some j =>
      rw [pyRFind_some content ')' j hl, specJsonpUnwrap_eq content jp i j hf hl]
      by_cases hij : (j : Int) ≤ (i : Int) + 1
      · rw [if_pos (Or.inr hij)]
        by_cases hij2 : i < j
        · have hj : j = i + 1 := by omega
          rw [if_pos hij2]
          subst hj
          rw [pySlice_self content (i + 1), hjp]
          rfl
        · rw [if_neg hij2]
          rfl
      · rw [if_neg (by omega), if_pos (by omega : i < j)]
        have h1 : ((i : Int) + 1).toNat = i + 1 := by omega
        have h2 : ((j : Int)).toNat = j := by omega
        rw [h1, h2]
        rfl

theorem eventsSlice_eq_fixtureSlice (content : String) :
    jsonpSliceEvents content = jsonpSliceFixture content := by
  rw [jsonpSliceEvents, jsonpSliceFixture]
  cases hf : firstIdx? '(' content.data with
  | none =>
    rw [pyFind_none content '(' hf,
      if_pos (Or.inl (by decide)), if_pos (Or.inl (by decide))]
  | some i =>
    rw [pyFind_some content '(' i hf]
    cases hl : lastIdx? ')' content.data with
    | none =>
      rw [pyRFind_none content ')' hl,
        if_pos (Or.inr (Or.inl (by decide))), if_pos (Or.inr (by omega))]
    | some j =>
      rw [pyRFind_some content ')' j hl]
      by_cases hij : (j : Int) ≤ (i : Int) + 1
      · rw [if_pos (by omega), if_pos (Or.inr hij)]
      · rw [if_neg (by omega), if_neg (by omega)]

/-- Claim C2: on every response body, the scrapers' JSONP unwrap (the
string-slicing of `obtener_fixture_json` / `obtener_standings_json` and of
`MatchEventScraper._extract_json_from_jsonp`, followed by `json.loads`)
agrees with the specification's description: parse the substring strictly
between the first `(` and the last `)`, and error when the body has no `(`
occurring before a later `)`.  `jp` stands for `json.loads`; the only fact
used about it is that the empty document is invalid JSON. -/
theorem C2_jsonp_unwrap (content : String) (jp : String → Option String)
    (hjp : jp "" = none) :
    fixtureUnwrap jp content = specJsonpUnwrap jp content
      ∧ eventsUnwrap jp content = specJsonpUnwrap jp content := by
  refine ⟨fixtureUnwrap_eq_spec content jp hjp, ?_⟩
  rw [eventsUnwrap, eventsSlice_eq_fixtureSlice]
  exact fixtureUnwrap_eq_spec content jp hjp

/-- Witness for C2 at a concrete body and a concrete parser. -/
theorem C2_jsonp_unwrap_witness :
    jp0 "" = none
      ∧ (fixtureUnwrap jp0 "cb(42)" = specJsonpUnwrap jp0 "cb(42)"
          ∧ eventsUnwrap jp0 "cb(42)" = specJsonpUnwrap jp0 "cb(42)") :=
  ⟨rfl, C2_jsonp_unwrap "cb(42)" jp0 rfl⟩

/-! ## Helper lemmas about the resume scans -/

theorem find_fixture_resume_scan_eq (fs : FS) (l : List (Nat × SeasonRow)) :
    find_fixture_resume_scan FixtureScraper.defaultConfig fs l
      = (l.find? fun pr => fixture_row_missing fs pr.2).map Prod.fst := by
  induction l with
  | nil => rfl
  | cons hd t ih =>
    obtain ⟨lbl, r⟩ := hd
    cases hp : FixtureScraper.get_json_path FixtureScraper.defaultConfig r with
    | none =>
      have hm : fixture_row_missing fs r = true := by
        rw [fixture_row_missing, hp]
      have hred : find_fixture_resume_scan FixtureScraper.defaultConfig fs ((lbl, r) :: t)
          = some lbl := by
        rw [find_fixture_resume_scan, hp]
      have hfind : List.find? (fun pr : Nat × SeasonRow => fixture_row_missing fs pr.2)
          ((lbl, r) :: t) = some (lbl, r) := by
        simp only [List.find?_cons, hm]
      rw [hred, hfind]
      rfl
    | some p =>
      have hm : fixture_row_missing fs r = !pathExists fs p := by
        rw [fixture_row_missing, hp]
      have hred : find_fixture_resume_scan FixtureScraper.defaultConfig fs ((lbl, r) :: t)
          = if (!pathExists fs p) = true then some lbl
            else find_fixture_resume_scan FixtureScraper.defaultConfig fs t := by
        rw [find_fixture_resume_scan, hp]
      by_cases hex : pathExists fs p
      · have hfind : List.find? (fun pr : Nat × SeasonRow => fixture_row_missing fs pr.2)
            ((lbl, r) :: t)
            = List.find? (fun pr : Nat × SeasonRow => fixture_row_missing fs pr.2) t := by
          simp only [List.find?_cons, hm, hex, Bool.not_true]
        rw [hred, hfind, if_neg (by rw [hex]; decide)]
        exact ih
      · have hex2 : pathExists fs p = false := Bool.eq_false_iff.mpr hex
        have hfind : List.find? (fun pr : Nat × SeasonRow => fixture_row_missing fs pr.2)
            ((lbl, r) :: t) = some (lbl, r) := by
          simp only [List.find?_cons, hm, hex2, Bool.not_false]
        rw [hred, hfind, if_pos (by rw [hex2]; decide)]
        rfl

theorem find_standings_resume_scan_eq (fs : FS) (l : List (Nat × SeasonRow)) :
    find_standings_resume_scan fs l
      = (l.find? fun pr => standings_row_missing fs pr.2).map Prod.fst := by
  induction l with
  | nil => rfl
  | cons hd t ih =>
    obtain ⟨lbl, r⟩ := hd
    cases hp : standings_resume_path r with
    | none =>
      have hm : standings_row_missing fs r = false := by
        rw [standings_row_missing, hp]
      have hred : find_standings_resume_scan fs ((lbl, r) :: t)
          = find_standings_resume_scan fs t := by
        rw [find_standings_resume_scan, hp]
      have hfind : List.find? (fun pr : Nat × SeasonRow => standings_row_missing fs pr.2)
          ((lbl, r) :: t)
          = List.find? (fun pr : Nat × SeasonRow => standings_row_missing fs pr.2) t := by
        simp only [List.find?_cons, hm]
      rw [hred, hfind]
      exact ih
    | some p =>
      have hm : standings_row_missing fs r = !pathExists fs p := by
        rw [standings_row_missing, hp]
      have hred : find_standings_resume_scan fs ((lbl, r) :: t)
          = if (!pathExists fs p) = true then some lbl
            else find_standings_resume_scan fs t := by
        rw [find_standings_resume_scan, hp]
      by_cases hex : pathExists fs p
      · have hfind : List.find? (fun pr : Nat × SeasonRow => standings_row_missing fs pr.2)
            ((lbl, r) :: t)
            = List.find? (fun pr : Nat × SeasonRow => standings_row_missing fs pr.2) t := by
          simp only [List.find?_cons, hm, hex, Bool.not_true]
        rw [hred, hfind, if_neg (by rw [hex]; decide)]
        exact ih
      · have hex2 : pathExists fs p = false := Bool.eq_false_iff.mpr hex
        have hfind : List.find? (fun pr : Nat × SeasonRow => standings_row_missing fs pr.2)
            ((lbl, r) :: t) = some (lbl, r) := by
          simp only [List.find?_cons, hm, hex2, Bool.not_false]
        rw [hred, hfind, if_pos (by rw [hex2]; decide)]
        rfl

/-- Claim C1 as stated is false on the code: the functions return the
original DataFrame index label of the first missing row, not its position
among the filtered rows.  With a filter dropping the first row, the code
returns label `1` for the first (and only) filtered row, while the claim's
positional scan returns `0`. -/
theorem C1_resume_index_counterexample :
    find_fixture_resume_index fsEmpty dfMixed filtersEurope
      ≠ claimed_resume_index (fixture_row_missing fsEmpty) dfMixed filtersEurope := by
  decide

/-- Claim C1, amended: both resume functions scan the filtered rows in order
and return the original DataFrame index label (not the position) of the
first row whose target JSON file is missing, and the number of filtered rows
when every row's file exists.  The fixture scan counts a row whose path
cannot be built as missing; the standings scan skips rows without an
extractable season name. -/
theorem C1_resume_index_amended (fs : FS) (df : List (Nat × SeasonRow))
    (filters : List (String × FilterVal)) :
    find_fixture_resume_index fs df filters
        = (match (apply_filters df filters).find? (fun pr => fixture_row_missing fs pr.2) with
           | some pr => pr.1
           | none => (apply_filters df filters).length)
      ∧ find_standings_resume_index fs df filters
        = (match (apply_filters df filters).find? (fun pr => standings_row_missing fs pr.2) with
           | some pr => pr.1
           | none => (apply_filters df filters).length) := by
  constructor
  · rw [find_fixture_resume_index, find_fixture_resume_scan_eq]
    cases (apply_filters df filters).find? (fun pr => fixture_row_missing fs pr.2) with
    | none => rfl
    | some pr => rfl
  · rw [find_standings_resume_index, find_standings_resume_scan_eq]
    cases (apply_filters df filters).find? (fun pr => standings_row_missing fs pr.2) with
    | none => rfl
    | some pr => rfl

/-! ## Claim C5: the `skip_existing` fast path -/

theorem fileExists_pathExists (fs : FS) (p : String) (h : fileExists fs p = true) :
    pathExists fs p = true := by
  rw [pathExists, h]
  rfl

/-- Claim C5 as stated is false on the code: a row whose target fixture file
exists on disk but whose `url_temporada` yields no tournament id is rejected
by the `torneo_id` check before the skip check ever runs, so
`save_fixture_json` returns `False`. -/
theorem C5_skip_existing_counterexample :
    fileExists fsSpainFull
        (FixtureScraper.save_json_path FixtureScraper.defaultConfig rowNoTorneo) = true
      ∧ (FixtureScraper.save_fixture_json FixtureScraper.defaultConfig jp0 rowNoTorneo true
          (quietWorld fsSpainFull)).1 = SaveResult.ret false := by
  decide

/-- Claim C5, amended: for every season row whose tournament id and season
name are both extractable and whose season directory and target JSON file
exist, `save_fixture_json` (resp. `save_standings_json`) with
`skip_existing=True` returns `True` and leaves the world untouched: no HTTP
request is consumed or recorded, no file is written, and the standings
variant merely bumps its `saltados` counter. -/
theorem C5_skip_existing_amended :
    (∀ (cfg : ScraperConfig) (jp : String → Option String) (row : SeasonRow) (w : World),
      strTruthy (get_torneo_id row.url_temporada) = true →
      strTruthy (get_season_name_from_url row.url_resultados) = true →
      pathExists w.fs (FixtureScraper.save_dir_path cfg row) = true →
      fileExists w.fs (FixtureScraper.save_json_path cfg row) = true →
      FixtureScraper.save_fixture_json cfg jp row true w = (SaveResult.ret true, w))
    ∧ (∀ (cfg : ScraperConfig) (jp : String → Option String) (row : SeasonRow)
        (c : Counters) (w : World),
      strTruthy (get_torneo_id row.url_temporada) = true →
      strTruthy (get_season_name_from_url row.url_resultados) = true →
      pathExists w.fs (StandingsScraper.save_dir_path cfg row) = true →
      fileExists w.fs (StandingsScraper.save_json_path cfg row) = true →
      StandingsScraper.save_standings_json cfg jp row true c w
        = (SaveResult.ret true, { c with saltados := c.saltados + 1 }, w)) := by
  constructor
  · intro cfg jp row w ht hs hdir hfile
    have hfile' := fileExists_pathExists _ _ hfile
    simp only [FixtureScraper.save_fixture_json, ht, hs, hdir, hfile', Bool.not_true,
      Bool.false_eq_true, if_false, Bool.true_and, if_true]
  · intro cfg jp row c w ht hs hdir hfile
    have hfile' := fileExists_pathExists _ _ hfile
    simp only [StandingsScraper.save_standings_json, ht, hs, hdir, hfile', Bool.not_true,
      Bool.false_eq_true, if_false, Bool.true_and, if_true]

/-- Witness for the amended C5 on a concrete row and filesystem. -/
theorem C5_skip_existing_witness :
    FixtureScraper.save_fixture_json FixtureScraper.defaultConfig jp0 rowSpain true
        (quietWorld fsSpainFull) = (SaveResult.ret true, quietWorld fsSpainFull)
      ∧ StandingsScraper.save_standings_json StandingsScraper.defaultConfig jp0 rowSpain true
          Counters.zero (quietWorld fsSpainFull)
        = (SaveResult.ret true, { Counters.zero with saltados := 1 }, quietWorld fsSpainFull) :=
  ⟨C5_skip_existing_amended.1 _ jp0 rowSpain _ (by decide) (by decide) (by decide) (by decide),
   C5_skip_existing_amended.2 _ jp0 rowSpain Counters.zero _
     (by decide) (by decide) (by decide) (by decide)⟩

/-! ## Claim C4: failures are caught, counted, and the loop continues -/

theorem standings_save_err (cfg : ScraperConfig) (jp : String → Option String)
    (row : SeasonRow) (skip : Bool) (c : Counters) (w : World)
    (ht : strTruthy (get_torneo_id row.url_temporada) = true)
    (hs : strTruthy (get_season_name_from_url row.url_resultados) = true)
    (hdir : pathExists w.fs (StandingsScraper.save_dir_path cfg row) = true)
    (hnofile : pathExists w.fs (StandingsScraper.save_json_path cfg row) = false)
    (hfail : fetch_fails jp w.http = true) :
    StandingsScraper.save_standings_json cfg jp row skip c w
      = (SaveResult.ret false, { c with fallos := c.fallos + 1 },
         afterGet w (StandingsScraper.standings_api_url cfg
           ((get_torneo_id row.url_temporada).getD ""))) := by
  cases hq : w.http with
  | nil =>
    simp only [afterGet, StandingsScraper.save_standings_json, StandingsScraper.obtener_standings_json,
      popHttp, emit, hq, ht, hs, hdir, hnofile, Bool.not_true, Bool.false_eq_true, if_false,
      Bool.and_false, List.tail_nil]
  | cons r0 t =>
    cases r0 with
    | failure =>
      simp only [afterGet, StandingsScraper.save_standings_json, StandingsScraper.obtener_standings_json,
        popHttp, emit, hq, ht, hs, hdir, hnofile, Bool.not_true, Bool.false_eq_true, if_false,
        Bool.and_false, List.tail_cons]
    | interrupt =>
      rw [hq] at hfail
      simp only [fetch_fails] at hfail
      exact absurd hfail (by decide)
    | ok body =>
      have hparse : (jsonpSliceFixture body).bind jp = none := by
        rw [hq] at hfail
        simp only [fetch_fails] at hfail
        exact Option.isNone_iff_eq_none.mp hfail
      simp only [afterGet, StandingsScraper.save_standings_json, StandingsScraper.obtener_standings_json,
        popHttp, emit, hq, ht, hs, hdir, hnofile, hparse, Bool.not_true, Bool.false_eq_true,
        if_false, Bool.and_false, List.tail_cons]

theorem fixture_save_err (cfg : ScraperConfig) (jp : String → Option String)
    (row : SeasonRow) (skip : Bool) (w : World)
    (ht : strTruthy (get_torneo_id row.url_temporada) = true)
    (hs : strTruthy (get_season_name_from_url row.url_resultados) = true)
    (hdir : pathExists w.fs (FixtureScraper.save_dir_path cfg row) = true)
    (hnofile : pathExists w.fs (FixtureScraper.save_json_path cfg row) = false)
    (hfail : fetch_fails jp w.http = true) :
    FixtureScraper.save_fixture_json cfg jp row skip w
      = (SaveResult.ret false,
         afterGet w (FixtureScraper.fixture_api_url cfg
           ((get_torneo_id row.url_temporada).getD ""))) := by
  cases hq : w.http with
  | nil =>
    simp only [afterGet, FixtureScraper.save_fixture_json, FixtureScraper.obtener_fixture_json,
      popHttp, emit, hq, ht, hs, hdir, hnofile, Bool.not_true, Bool.false_eq_true, if_false,
      Bool.and_false, List.tail_nil]
  | cons r0 t =>
    cases r0 with
    | failure =>
      simp only [afterGet, FixtureScraper.save_fixture_json, FixtureScraper.obtener_fixture_json,
        popHttp, emit, hq, ht, hs, hdir, hnofile, Bool.not_true, Bool.false_eq_true, if_false,
        Bool.and_false, List.tail_cons]
    | interrupt =>
      rw [hq] at hfail
      simp only [fetch_fails] at hfail
      exact absurd hfail (by decide)
    | ok body =>
      have hparse : (jsonpSliceFixture body).bind jp = none := by
        rw [hq] at hfail
        simp only [fetch_fails] at hfail
        exact Option.isNone_iff_eq_none.mp hfail
      simp only [afterGet, FixtureScraper.save_fixture_json, FixtureScraper.obtener_fixture_json,
        popHttp, emit, hq, ht, hs, hdir, hnofile, hparse, Bool.not_true, Bool.false_eq_true,
        if_false, Bool.and_false, List.tail_cons]

theorem fixture_loop_err_step (cfg : ScraperConfig) (jp : String → Option String)
    (skip : Bool) (row : SeasonRow) (rest : List SeasonRow)
    (st : FixtureScraper.FixtureStats) (w w1 : World)
    (hsave : FixtureScraper.save_fixture_json cfg jp row skip w = (SaveResult.ret false, w1)) :
    FixtureScraper.process_loop cfg jp skip (row :: rest) st w
      = FixtureScraper.process_loop cfg jp skip rest
          { st with processed := st.processed + 1, errors := st.errors + 1 } w1 := by
  rw [FixtureScraper.process_loop, hsave]
  rfl

theorem standings_loop_step (cfg : ScraperConfig) (jp : String → Option String)
    (skip : Bool) (row : SeasonRow) (rest : List SeasonRow)
    (c : Counters) (w : World) (b : Bool) (c1 : Counters) (w1 : World)
    (hsave : StandingsScraper.save_standings_json cfg jp row skip c w
      = (SaveResult.ret b, c1, w1)) :
    StandingsScraper.process_loop cfg jp skip (row :: rest) c w
      = StandingsScraper.process_loop cfg jp skip rest
          { c1 with procesados := c1.procesados + 1 } w1 := by
  rw [StandingsScraper.process_loop, hsave]

/-- Claim C4: when the HTTP request or the JSON parsing inside a save fails,
the exception is caught rather than propagated: `save_standings_json`
returns `False` with `fallos` incremented and nothing written, the fixture
variant returns `False` with nothing written (its failure is counted by the
loop's `errors` counter), and the bulk loops continue with the next row. -/
theorem C4_errors_caught_and_counted :
    (∀ (cfg : ScraperConfig) (jp : String → Option String) (row : SeasonRow)
        (skip : Bool) (c : Counters) (w : World),
      strTruthy (get_torneo_id row.url_temporada) = true →
      strTruthy (get_season_name_from_url row.url_resultados) = true →
      pathExists w.fs (StandingsScraper.save_dir_path cfg row) = true →
      pathExists w.fs (StandingsScraper.save_json_path cfg row) = false →
      fetch_fails jp w.http = true →
      StandingsScraper.save_standings_json cfg jp row skip c w
        = (SaveResult.ret false, { c with fallos := c.fallos + 1 },
           afterGet w (StandingsScraper.standings_api_url cfg
             ((get_torneo_id row.url_temporada).getD ""))))
    ∧ (∀ (cfg : ScraperConfig) (jp : String → Option String) (row : SeasonRow)
        (skip : Bool) (w : World),
      strTruthy (get_torneo_id row.url_temporada) = true →
      strTruthy (get_season_name_from_url row.url_resultados) = true →
      pathExists w.fs (FixtureScraper.save_dir_path cfg row) = true →
      pathExists w.fs (FixtureScraper.save_json_path cfg row) = false →
      fetch_fails jp w.http = true →
      FixtureScraper.save_fixture_json cfg jp row skip w
        = (SaveResult.ret false,
           afterGet w (FixtureScraper.fixture_api_url cfg
             ((get_torneo_id row.url_temporada).getD ""))))
    ∧ (∀ (cfg : ScraperConfig) (jp : String → Option String) (skip : Bool)
        (row : SeasonRow) (rest : List SeasonRow) (st : FixtureScraper.FixtureStats)
        (w w1 : World),
      FixtureScraper.save_fixture_json cfg jp row skip w = (SaveResult.ret false, w1) →
      FixtureScraper.process_loop cfg jp skip (row :: rest) st w
        = FixtureScraper.process_loop cfg jp skip rest
            { st with processed := st.processed + 1, errors := st.errors + 1 } w1)
    ∧ (∀ (cfg : ScraperConfig) (jp : String → Option String) (skip : Bool)
        (row : SeasonRow) (rest : List SeasonRow) (c : Counters) (w : World)
        (b : Bool) (c1 : Counters) (w1 : World),
      StandingsScraper.save_standings_json cfg jp row skip c w = (SaveResult.ret b, c1, w1) →
      StandingsScraper.process_loop cfg jp skip (row :: rest) c w
        = StandingsScraper.process_loop cfg jp skip rest
            { c1 with procesados := c1.procesados + 1 } w1) :=
  ⟨fun cfg jp row skip c w ht hs hdir hnofile hfail =>
      standings_save_err cfg jp row skip c w ht hs hdir hnofile hfail,
   fun cfg jp row skip w ht hs hdir hnofile hfail =>
      fixture_save_err cfg jp row skip w ht hs hdir hnofile hfail,
   fun cfg jp skip row rest st w w1 hsave =>
      fixture_loop_err_step cfg jp skip row rest st w w1 hsave,
   fun cfg jp skip row rest c w b c1 w1 hsave =>
      standings_loop_step cfg jp skip row rest c w b c1 w1 hsave⟩

/-- Witness for C4 on a concrete failing request. -/
theorem C4_errors_caught_witness :
    StandingsScraper.save_standings_json StandingsScraper.defaultConfig jp0 rowSpain true
        Counters.zero wFailing
      = (SaveResult.ret false, { Counters.zero with fallos := 1 },
         afterGet wFailing (StandingsScraper.standings_api_url
           StandingsScraper.defaultConfig
           ((get_torneo_id rowSpain.url_temporada).getD "")))
      ∧ FixtureScraper.save_fixture_json FixtureScraper.defaultConfig jp0 rowSpain true wFailing
      = (SaveResult.ret false,
         afterGet wFailing (FixtureScraper.fixture_api_url
           FixtureScraper.defaultConfig
           ((get_torneo_id rowSpain.url_temporada).getD ""))) :=
  ⟨C4_errors_caught_and_counted.1 _ jp0 rowSpain true Counters.zero wFailing
     (by decide) (by decide) (by decide) (by decide) (by decide),
   C4_errors_caught_and_counted.2.1 _ jp0 rowSpain true wFailing
     (by decide) (by decide) (by decide) (by decide) (by decide)⟩

/-! ## Helper lemmas about `os.path.join` and path shapes -/

theorem empty_append_str (a : String) : "" ++ a = a := rfl

theorem pyJoinStep_empty (a : String) : pyJoinStep "" a = a := by
  rw [pyJoinStep]
  by_cases h : startsSlash a
  · rw [if_pos h]
  · rw [if_neg h, if_pos (by decide)]
    exact empty_append_str a

theorem append_slash_data (a b : String) :
    (a ++ "/" ++ b).data = a.data ++ '/' :: b.data := by
  simp [String.data_append]

theorem append_slash_ne_nil (a b : String) : (a ++ "/" ++ b).data ≠ [] := by
  rw [append_slash_data]
  simp

theorem getLast?_append_right (l1 l2 : List Char) (h : l2 ≠ []) :
    (l1 ++ l2).getLast? = l2.getLast? := by
  rw [List.getLast?_append]
  cases hq : l2.getLast? with
  | none =>
    rw [List.getLast?_eq_none_iff] at hq
    exact absurd hq h
  | some z => rfl

theorem endsSlash_append_slash (a b : String) (hb : b.data ≠ [])
    (hbe : endsSlash b = false) : endsSlash (a ++ "/" ++ b) = false := by
  rw [endsSlash] at hbe ⊢
  rw [append_slash_data, show a.data ++ '/' :: b.data = a.data ++ ('/' :: b.data) from rfl,
    getLast?_append_right _ _ (by simp)]
  cases hq : b.data with
  | nil => exact absurd hq hb
  | cons c cs =>
    rw [List.getLast?_cons_cons]
    rw [hq] at hbe
    exact hbe

theorem plainSeg_spec (s : String) (h : plainSeg s = true) :
    s.data ≠ [] ∧ startsSlash s = false ∧ endsSlash s = false := by
  rw [plainSeg, Bool.and_eq_true, Bool.and_eq_true] at h
  obtain ⟨⟨h1, h2⟩, h3⟩ := h
  refine ⟨?_, ?_, ?_⟩
  · intro hq
    rw [hq] at h1
    exact absurd h1 (by decide)
  · cases hq : startsSlash s with
    | false => rfl
    | true =>
      rw [hq] at h2
      exact absurd h2 (by decide)
  · cases hq : endsSlash s with
    | false => rfl
    | true =>
      rw [hq] at h3
      exact absurd h3 (by decide)

theorem pyJoinStep_plain (acc b : String) (ha : acc.data ≠ [])
    (hae : endsSlash acc = false) (hbs : startsSlash b = false) :
    pyJoinStep acc b = acc ++ "/" ++ b := by
  have hie : acc.data.isEmpty = false := by
    cases hq : acc.data with
    | nil => exact absurd hq ha
    | cons c cs => rfl
  rw [pyJoinStep, if_neg (by rw [hbs]; exact Bool.false_ne_true),
    if_neg (by rw [hie, hae]; decide)]

theorem foldl_pyJoinStep_plain (rest : List String) :
    ∀ acc : String, acc.data ≠ [] → endsSlash acc = false →
    (∀ p ∈ rest, plainSeg p = true) →
    List.foldl pyJoinStep acc rest = slashJoin acc rest := by
  induction rest with
  | nil => intro acc _ _ _; rfl
  | cons b bs ih =>
    intro acc ha hae hrest
    obtain ⟨hb1, hb2, hb3⟩ := plainSeg_spec b (hrest b (List.mem_cons_self b bs))
    rw [List.foldl_cons, pyJoinStep_plain acc b ha hae hb2, slashJoin]
    exact ih (acc ++ "/" ++ b) (append_slash_ne_nil acc b)
      (endsSlash_append_slash acc b hb1 hb3)
      (fun p hp => hrest p (List.mem_cons_of_mem b hp))

theorem pyJoin_plain (a : String) (rest : List String) (ha : a.data ≠ [])
    (hae : endsSlash a = false) (hrest : ∀ p ∈ rest, plainSeg p = true) :
    pyJoin (a :: rest) = slashJoin a rest := by
  rw [pyJoin, List.foldl_cons, pyJoinStep_empty]
  exact foldl_pyJoinStep_plain rest a ha hae hrest

theorem slashJoin_ne_nil (l : List String) :
    ∀ acc : String, acc.data ≠ [] → (slashJoin acc l).data ≠ [] := by
  induction l with
  | nil => intro acc ha; exact ha
  | cons b bs ih =>
    intro acc ha
    rw [slashJoin]
    exact ih (acc ++ "/" ++ b) (append_slash_ne_nil acc b)

theorem slashJoin_endsSlash (l : List String) :
    ∀ acc : String, endsSlash acc = false → (∀ p ∈ l, plainSeg p = true) →
    endsSlash (slashJoin acc l) = false := by
  induction l with
  | nil => intro acc hae _; exact hae
  | cons b bs ih =>
    intro acc hae hl
    obtain ⟨hb1, _, hb3⟩ := plainSeg_spec b (hl b (List.mem_cons_self b bs))
    rw [slashJoin]
    exact ih (acc ++ "/" ++ b) (endsSlash_append_slash acc b hb1 hb3)
      (fun p hp => hl p (List.mem_cons_of_mem b hp))

theorem pyJoin_two_plain (a b : String) (ha : a.data ≠ [])
    (hae : endsSlash a = false) (hbs : startsSlash b = false) :
    pyJoin [a, b] = a ++ "/" ++ b := by
  rw [pyJoin, List.foldl_cons, pyJoinStep_empty, List.foldl_cons,
    pyJoinStep_plain a b ha hae hbs, List.foldl_nil]

theorem fixture_path_shape (cfg : ScraperConfig) (row : SeasonRow) (sn : String)
    (hsn : get_season_name_from_url row.url_resultados = some sn)
    (hd : cfg.dataDir.data ≠ []) (hde : endsSlash cfg.dataDir = false)
    (h1 : plainSeg (pyReplaceChar '/' '_' row.continente) = true)
    (h2 : plainSeg (pyReplaceChar '/' '_' row.pais) = true)
    (h3 : plainSeg (pyReplaceChar '/' '_' row.competicion ++ "_" ++ row.id_competicion) = true)
    (h4 : plainSeg sn = true) :
    FixtureScraper.save_json_path cfg row
      = slashJoin cfg.dataDir [pyReplaceChar '/' '_' row.continente,
          pyReplaceChar '/' '_' row.pais,
          pyReplaceChar '/' '_' row.competicion ++ "_" ++ row.id_competicion,
          sn, "fixture.json"] := by
  have hrest : ∀ p ∈ [pyReplaceChar '/' '_' row.continente,
      pyReplaceChar '/' '_' row.pais,
      pyReplaceChar '/' '_' row.competicion ++ "_" ++ row.id_competicion, sn],
      plainSeg p = true := by
    intro p hp
    simp only [List.mem_cons, List.not_mem_nil, or_false] at hp
    rcases hp with rfl | rfl | rfl | rfl
    · exact h1
    · exact h2
    · exact h3
    · exact h4
  have hdirp : FixtureScraper.save_dir_path cfg row
      = slashJoin cfg.dataDir [pyReplaceChar '/' '_' row.continente,
          pyReplaceChar '/' '_' row.pais,
          pyReplaceChar '/' '_' row.competicion ++ "_" ++ row.id_competicion, sn] := by
    rw [FixtureScraper.save_dir_path, hsn, Option.getD_some]
    exact pyJoin_plain _ _ hd hde hrest
  rw [FixtureScraper.save_json_path, hdirp,
    pyJoin_two_plain _ _ (slashJoin_ne_nil _ _ hd)
      (slashJoin_endsSlash _ _ hde hrest) (by decide)]
  rfl

theorem standings_path_shape (cfg : ScraperConfig) (row : SeasonRow) (sn : String)
    (hsn : get_season_name_from_url row.url_resultados = some sn)
    (hd : cfg.dataDir.data ≠ []) (hde : endsSlash cfg.dataDir = false)
    (h1 : plainSeg (sanitize_dir_name (some row.continente)) = true)
    (h2 : plainSeg (sanitize_dir_name (some row.pais)) = true)
    (h3 : plainSeg (sanitize_dir_name (some row.competicion) ++ "_" ++ row.id_competicion) = true)
    (h4 : plainSeg sn = true) :
    StandingsScraper.save_json_path cfg row
      = slashJoin cfg.dataDir [sanitize_dir_name (some row.continente),
          sanitize_dir_name (some row.pais),
          sanitize_dir_name (some row.competicion) ++ "_" ++ row.id_competicion,
          sn, "standings.json"] := by
  have hrest : ∀ p ∈ [sanitize_dir_name (some row.continente),
      sanitize_dir_name (some row.pais),
      sanitize_dir_name (some row.competicion) ++ "_" ++ row.id_competicion, sn],
      plainSeg p = true := by
    intro p hp
    simp only [List.mem_cons, List.not_mem_nil, or_false] at hp
    rcases hp with rfl | rfl | rfl | rfl
    · exact h1
    · exact h2
    · exact h3
    · exact h4
  have hdirp : StandingsScraper.save_dir_path cfg row
      = slashJoin cfg.dataDir [sanitize_dir_name (some row.continente),
          sanitize_dir_name (some row.pais),
          sanitize_dir_name (some row.competicion) ++ "_" ++ row.id_competicion, sn] := by
    rw [StandingsScraper.save_dir_path, StandingsScraper.standings_dir_path, hsn,
      Option.getD_some]
    exact pyJoin_plain _ _ hd hde hrest
  rw [StandingsScraper.save_json_path, hdirp,
    pyJoin_two_plain _ _ (slashJoin_ne_nil _ _ hd)
      (slashJoin_endsSlash _ _ hde hrest) (by decide)]
  rfl

/-! ## Helper lemmas about the UI directory enumeration -/

theorem takeWhile_no_slash_self (n : List Char) (h : ∀ c ∈ n, c ≠ '/') :
    n.takeWhile (· ≠ '/') = n := by
  induction n with
  | nil => rfl
  | cons c cs ih =>
    rw [List.takeWhile_cons, if_pos (by simp [h c (List.mem_cons_self c cs)])]
    rw [ih fun x hx => h x (List.mem_cons_of_mem c hx)]

theorem takeWhile_until_slash (n rest : List Char) (h : ∀ c ∈ n, c ≠ '/') :
    (n ++ '/' :: rest).takeWhile (· ≠ '/') = n := by
  induction n with
  | nil =>
    rw [List.nil_append, List.takeWhile_cons, if_neg (by simp)]
  | cons c cs ih =>
    rw [List.cons_append, List.takeWhile_cons, if_pos (by simp [h c (List.mem_cons_self c cs)])]
    rw [ih fun x hx => h x (List.mem_cons_of_mem c hx)]

theorem mem_childNames_of_entry (fs : FS) (p n : String)
    (hn : ∀ c ∈ n.data, c ≠ '/') (q : String)
    (hq : q ∈ fs.dirs ++ fs.files.map Prod.fst)
    (hshape : q.data = p.data ++ '/' :: n.data
      ∨ ∃ rest, q.data = p.data ++ '/' :: (n.data ++ '/' :: rest)) :
    n ∈ childNames fs p := by
  rw [childNames, List.mem_dedup]
  refine List.mem_filterMap.mpr ⟨q, hq, ?_⟩
  have hps : (p ++ "/").data = p.data ++ ['/'] := by
    simp [String.data_append]
  have hpre : ((p ++ "/").data).isPrefixOf q.data = true := by
    rw [List.isPrefixOf_iff_prefix, hps]
    rcases hshape with h | ⟨rest, h⟩
    · rw [h, List.append_cons p.data '/' n.data]
      exact List.prefix_append _ _
    · rw [h, List.append_cons p.data '/' (n.data ++ '/' :: rest)]
      exact List.prefix_append _ _
  rw [if_pos hpre]
  have hlen : (p.data ++ ['/']).length = p.data.length + 1 := by simp
  rcases hshape with h | ⟨rest, h⟩
  · rw [h, List.append_cons p.data '/' n.data, List.drop_left' hlen,
      takeWhile_no_slash_self n.data hn]
  · rw [h, List.append_cons p.data '/' (n.data ++ '/' :: rest), List.drop_left' hlen,
      takeWhile_until_slash n.data rest hn]

theorem mem_childDirNames (fs : FS) (p n : String)
    (hn : ∀ c ∈ n.data, c ≠ '/') :
    n ∈ childDirNames fs p ↔ dirExists fs (p ++ "/" ++ n) = true := by
  constructor
  · intro h
    rw [childDirNames, sortStrings, List.mem_mergeSort, List.mem_filter] at h
    exact h.2
  · intro h
    rw [childDirNames, sortStrings, List.mem_mergeSort, List.mem_filter]
    refine ⟨?_, h⟩
    rw [dirExists, Bool.or_eq_true, Bool.or_eq_true] at h
    rcases h with (h | h) | h
    · have hq : (p ++ "/" ++ n) ∈ fs.dirs := List.mem_of_elem_eq_true h
      exact mem_childNames_of_entry fs p n hn (p ++ "/" ++ n)
        (List.mem_append_left _ hq) (Or.inl (append_slash_data p n))
    · rw [List.any_eq_true] at h
      obtain ⟨qq, hqmem, hqpre⟩ := h
      obtain ⟨rest, hrest⟩ := List.isPrefixOf_iff_prefix.mp hqpre
      refine mem_childNames_of_entry fs p n hn qq.1
        (List.mem_append_right _ (List.mem_map_of_mem Prod.fst hqmem)) (Or.inr ⟨rest, ?_⟩)
      rw [← hrest]
      simp [String.data_append, List.append_assoc]
    · rw [List.any_eq_true] at h
      obtain ⟨qq, hqmem, hqpre⟩ := h
      obtain ⟨rest, hrest⟩ := List.isPrefixOf_iff_prefix.mp hqpre
      refine mem_childNames_of_entry fs p n hn qq
        (List.mem_append_left _ hqmem) (Or.inr ⟨rest, ?_⟩)
      rw [← hrest]
      simp [String.data_append, List.append_assoc]

theorem mem_get_continentes (fs : FS) (n : String)
    (hn : ∀ c ∈ n.data, c ≠ '/') (hbase : pathExists fs BASE_PATH = true) :
    n ∈ get_continentes fs ↔ dirExists fs (BASE_PATH ++ "/" ++ n) = true := by
  rw [get_continentes, if_neg (by rw [hbase]; decide)]
  exact mem_childDirNames fs BASE_PATH n hn

theorem mem_get_paises (fs : FS) (cont n : String) (hc : cont.data.isEmpty = false)
    (hn : ∀ c ∈ n.data, c ≠ '/')
    (hbase : pathExists fs (pyJoin [BASE_PATH, cont]) = true) :
    n ∈ get_paises fs cont
      ↔ dirExists fs (pyJoin [BASE_PATH, cont] ++ "/" ++ n) = true := by
  rw [get_paises, if_neg (by rw [hc]; decide)]
  rw [if_neg (by rw [hbase]; decide)]
  exact mem_childDirNames fs (pyJoin [BASE_PATH, cont]) n hn

theorem mem_get_competiciones (fs : FS) (cont pais n : String)
    (hc : cont.data.isEmpty = false) (hp : pais.data.isEmpty = false)
    (hn : ∀ c ∈ n.data, c ≠ '/')
    (hbase : pathExists fs (pyJoin [BASE_PATH, cont, pais]) = true) :
    n ∈ get_competiciones fs cont pais
      ↔ dirExists fs (pyJoin [BASE_PATH, cont, pais] ++ "/" ++ n) = true := by
  rw [get_competiciones, if_neg (by rw [hc, hp]; decide)]
  rw [if_neg (by rw [hbase]; decide)]
  exact mem_childDirNames fs (pyJoin [BASE_PATH, cont, pais]) n hn

theorem mem_get_temporadas (fs : FS) (cont pais comp n : String)
    (hc : cont.data.isEmpty = false) (hp : pais.data.isEmpty = false)
    (hcp : comp.data.isEmpty = false)
    (hn : ∀ c ∈ n.data, c ≠ '/')
    (hbase : pathExists fs (pyJoin [BASE_PATH, cont, pais, comp]) = true) :
    n ∈ get_temporadas fs cont pais comp
      ↔ dirExists fs (pyJoin [BASE_PATH, cont, pais, comp] ++ "/" ++ n) = true := by
  rw [get_temporadas, if_neg (by rw [hc, hp, hcp]; decide)]
  rw [if_neg (by rw [hbase]; decide)]
  exact mem_childDirNames fs (pyJoin [BASE_PATH, cont, pais, comp]) n hn


/-! ## The successful-download equations -/

theorem fixture_save_success (cfg : ScraperConfig) (jp : String → Option String)
    (row : SeasonRow) (skip : Bool) (w : World) (body d : String)
    (ht : strTruthy (get_torneo_id row.url_temporada) = true)
    (hs : strTruthy (get_season_name_from_url row.url_resultados) = true)
    (hdir : pathExists w.fs (FixtureScraper.save_dir_path cfg row) = true)
    (hskip : (skip && pathExists w.fs (FixtureScraper.save_json_path cfg row)) = false)
    (hq : w.http.head? = some (HttpResult.ok body))
    (hparse : (jsonpSliceFixture body).bind jp = some d)
    (hwdir : dirExists w.fs (FixtureScraper.save_dir_path cfg row) = true)
    (hwfile : dirExists w.fs (FixtureScraper.save_json_path cfg row) = false) :
    FixtureScraper.save_fixture_json cfg jp row skip w
      = (SaveResult.ret true,
         afterDownload w
           (FixtureScraper.fixture_api_url cfg ((get_torneo_id row.url_temporada).getD ""))
           (FixtureScraper.save_json_path cfg row) d
           (cfg.minDelay + (cfg.maxDelay - cfg.minDelay) * w.rand.headD 0)) := by
  cases hw : w.http with
  | nil =>
    rw [hw] at hq
    cases hq
  | cons r0 t =>
    have hr0 : r0 = HttpResult.ok body := by
      rw [hw] at hq
      simpa using hq
    subst hr0
    cases hr : w.rand with
    | nil =>
      simp only [FixtureScraper.save_fixture_json, FixtureScraper.obtener_fixture_json,
        afterDownload, popHttp, popRand, emit, hw, hr, ht, hs, hdir, hskip, hparse,
        hwdir, hwfile, Bool.not_true, Bool.false_eq_true, if_false, Bool.not_false,
        Bool.false_or, List.tail_cons, List.tail_nil, List.headD_nil, List.append_assoc,
        List.cons_append, List.nil_append]
    | cons u us =>
      simp only [FixtureScraper.save_fixture_json, FixtureScraper.obtener_fixture_json,
        afterDownload, popHttp, popRand, emit, hw, hr, ht, hs, hdir, hskip, hparse,
        hwdir, hwfile, Bool.not_true, Bool.false_eq_true, if_false, Bool.not_false,
        Bool.false_or, List.tail_cons, List.headD_cons, List.append_assoc,
        List.cons_append, List.nil_append]

theorem standings_save_success (cfg : ScraperConfig) (jp : String → Option String)
    (row : SeasonRow) (skip : Bool) (c : Counters) (w : World) (body d : String)
    (ht : strTruthy (get_torneo_id row.url_temporada) = true)
    (hs : strTruthy (get_season_name_from_url row.url_resultados) = true)
    (hdir : pathExists w.fs (StandingsScraper.save_dir_path cfg row) = true)
    (hskip : (skip && pathExists w.fs (StandingsScraper.save_json_path cfg row)) = false)
    (hq : w.http.head? = some (HttpResult.ok body))
    (hparse : (jsonpSliceFixture body).bind jp = some d)
    (hwdir : dirExists w.fs (StandingsScraper.save_dir_path cfg row) = true)
    (hwfile : dirExists w.fs (StandingsScraper.save_json_path cfg row) = false) :
    StandingsScraper.save_standings_json cfg jp row skip c w
      = (SaveResult.ret true, { c with exitos := c.exitos + 1 },
         afterDownload w
           (StandingsScraper.standings_api_url cfg ((get_torneo_id row.url_temporada).getD ""))
           (StandingsScraper.save_json_path cfg row) d
           (cfg.minDelay + (cfg.maxDelay - cfg.minDelay) * w.rand.headD 0)) := by
  cases hw : w.http with
  | nil =>
    rw [hw] at hq
    cases hq
  | cons r0 t =>
    have hr0 : r0 = HttpResult.ok body := by
      rw [hw] at hq
      simpa using hq
    subst hr0
    cases hr : w.rand with
    | nil =>
      simp only [StandingsScraper.save_standings_json, StandingsScraper.obtener_standings_json,
        afterDownload, popHttp, popRand, emit, hw, hr, ht, hs, hdir, hskip, hparse,
        hwdir, hwfile, Bool.not_true, Bool.false_eq_true, if_false, Bool.not_false,
        Bool.false_or, List.tail_cons, List.tail_nil, List.headD_nil, List.append_assoc,
        List.cons_append, List.nil_append]
    | cons u us =>
      simp only [StandingsScraper.save_standings_json, StandingsScraper.obtener_standings_json,
        afterDownload, popHttp, popRand, emit, hw, hr, ht, hs, hdir, hskip, hparse,
        hwdir, hwfile, Bool.not_true, Bool.false_eq_true, if_false, Bool.not_false,
        Bool.false_or, List.tail_cons, List.headD_cons, List.append_assoc,
        List.cons_append, List.nil_append]


/-- Claim C3: for every season row with an extractable season name, a
successful download writes the artifact exactly at the scraper's
`save_json_path`; that path is exactly
`data/<continent>/<country>/<competition>_<id>/<season>/<artifact>.json`
with the components sanitized the way each scraper does it (`str.replace`
for fixtures, `sanitize_dir_name` for standings); and the UI helpers
`get_continentes` / `get_paises` / `get_competiciones` / `get_temporadas`
enumerate exactly the directories of that hierarchy, level by level. -/
theorem C3_artifact_paths_and_ui_enumeration :
    (∀ (cfg : ScraperConfig) (jp : String → Option String) (row : SeasonRow)
        (skip : Bool) (w : World) (body d : String),
      strTruthy (get_torneo_id row.url_temporada) = true →
      strTruthy (get_season_name_from_url row.url_resultados) = true →
      pathExists w.fs (FixtureScraper.save_dir_path cfg row) = true →
      (skip && pathExists w.fs (FixtureScraper.save_json_path cfg row)) = false →
      w.http.head? = some (HttpResult.ok body) →
      (jsonpSliceFixture body).bind jp = some d →
      dirExists w.fs (FixtureScraper.save_dir_path cfg row) = true →
      dirExists w.fs (FixtureScraper.save_json_path cfg row) = false →
      FixtureScraper.save_fixture_json cfg jp row skip w
        = (SaveResult.ret true,
           afterDownload w
             (FixtureScraper.fixture_api_url cfg ((get_torneo_id row.url_temporada).getD ""))
             (FixtureScraper.save_json_path cfg row) d
             (cfg.minDelay + (cfg.maxDelay - cfg.minDelay) * w.rand.headD 0)))
    ∧ (∀ (cfg : ScraperConfig) (jp : String → Option String) (row : SeasonRow)
        (skip : Bool) (c : Counters) (w : World) (body d : String),
      strTruthy (get_torneo_id row.url_temporada) = true →
      strTruthy (get_season_name_from_url row.url_resultados) = true →
      pathExists w.fs (StandingsScraper.save_dir_path cfg row) = true →
      (skip && pathExists w.fs (StandingsScraper.save_json_path cfg row)) = false →
      w.http.head? = some (HttpResult.ok body) →
      (jsonpSliceFixture body).bind jp = some d →
      dirExists w.fs (StandingsScraper.save_dir_path cfg row) = true →
      dirExists w.fs (StandingsScraper.save_json_path cfg row) = false →
      StandingsScraper.save_standings_json cfg jp row skip c w
        = (SaveResult.ret true, { c with exitos := c.exitos + 1 },
           afterDownload w
             (StandingsScraper.standings_api_url cfg ((get_torneo_id row.url_temporada).getD ""))
             (StandingsScraper.save_json_path cfg row) d
             (cfg.minDelay + (cfg.maxDelay - cfg.minDelay) * w.rand.headD 0)))
    ∧ (∀ (cfg : ScraperConfig) (row : SeasonRow) (sn : String),
      get_season_name_from_url row.url_resultados = some sn →
      cfg.dataDir.data ≠ [] → endsSlash cfg.dataDir = false →
      plainSeg (pyReplaceChar '/' '_' row.continente) = true →
      plainSeg (pyReplaceChar '/' '_' row.pais) = true →
      plainSeg (pyReplaceChar '/' '_' row.competicion ++ "_" ++ row.id_competicion) = true →
      plainSeg sn = true →
      FixtureScraper.save_json_path cfg row
        = slashJoin cfg.dataDir [pyReplaceChar '/' '_' row.continente,
            pyReplaceChar '/' '_' row.pais,
            pyReplaceChar '/' '_' row.competicion ++ "_" ++ row.id_competicion,
            sn, "fixture.json"])
    ∧ (∀ (cfg : ScraperConfig) (row : SeasonRow) (sn : String),
      get_season_name_from_url row.url_resultados = some sn →
      cfg.dataDir.data ≠ [] → endsSlash cfg.dataDir = false →
      plainSeg (sanitize_dir_name (some row.continente)) = true →
      plainSeg (sanitize_dir_name (some row.pais)) = true →
      plainSeg (sanitize_dir_name (some row.competicion) ++ "_" ++ row.id_competicion) = true →
      plainSeg sn = true →
      StandingsScraper.save_json_path cfg row
        = slashJoin cfg.dataDir [sanitize_dir_name (some row.continente),
            sanitize_dir_name (some row.pais),
            sanitize_dir_name (some row.competicion) ++ "_" ++ row.id_competicion,
            sn, "standings.json"])
    ∧ (∀ (fs : FS) (n : String),
      (∀ c ∈ n.data, c ≠ '/') → pathExists fs BASE_PATH = true →
      (n ∈ get_continentes fs ↔ dirExists fs (BASE_PATH ++ "/" ++ n) = true))
    ∧ (∀ (fs : FS) (cont n : String),
      cont.data.isEmpty = false → (∀ c ∈ n.data, c ≠ '/') →
      pathExists fs (pyJoin [BASE_PATH, cont]) = true →
      (n ∈ get_paises fs cont
        ↔ dirExists fs (pyJoin [BASE_PATH, cont] ++ "/" ++ n) = true))
    ∧ (∀ (fs : FS) (cont pais n : String),
      cont.data.isEmpty = false → pais.data.isEmpty = false →
      (∀ c ∈ n.data, c ≠ '/') →
      pathExists fs (pyJoin [BASE_PATH, cont, pais]) = true →
      (n ∈ get_competiciones fs cont pais
        ↔ dirExists fs (pyJoin [BASE_PATH, cont, pais] ++ "/" ++ n) = true))
    ∧ (∀ (fs : FS) (cont pais comp n : String),
      cont.data.isEmpty = false → pais.data.isEmpty = false →
      comp.data.isEmpty = false → (∀ c ∈ n.data, c ≠ '/') →
      pathExists fs (pyJoin [BASE_PATH, cont, pais, comp]) = true →
      (n ∈ get_temporadas fs cont pais comp
        ↔ dirExists fs (pyJoin [BASE_PATH, cont, pais, comp] ++ "/" ++ n) = true)) :=
  ⟨fun cfg jp row skip w body d ht hs hdir hskip hq hparse hwdir hwfile =>
      fixture_save_success cfg jp row skip w body d ht hs hdir hskip hq hparse hwdir hwfile,
   fun cfg jp row skip c w body d ht hs hdir hskip hq hparse hwdir hwfile =>
      standings_save_success cfg jp row skip c w body d ht hs hdir hskip hq hparse hwdir hwfile,
   fun cfg row sn hsn hd hde h1 h2 h3 h4 =>
      fixture_path_shape cfg row sn hsn hd hde h1 h2 h3 h4,
   fun cfg row sn hsn hd hde h1 h2 h3 h4 =>
      standings_path_shape cfg row sn hsn hd hde h1 h2 h3 h4,
   fun fs n hn hbase => mem_get_continentes fs n hn hbase,
   fun fs cont n hc hn hbase => mem_get_paises fs cont n hc hn hbase,
   fun fs cont pais n hc hp hn hbase => mem_get_competiciones fs cont pais n hc hp hn hbase,
   fun fs cont pais comp n hc hp hcp hn hbase =>
      mem_get_temporadas fs cont pais comp n hc hp hcp hn hbase⟩

/-- Witness for C3 on concrete rows, worlds and filesystems. -/
theorem C3_artifact_paths_witness :
    FixtureScraper.save_fixture_json FixtureScraper.defaultConfig jp0 rowSpain true wOneOk
        = (SaveResult.ret true,
           afterDownload wOneOk
             (FixtureScraper.fixture_api_url FixtureScraper.defaultConfig
               ((get_torneo_id rowSpain.url_temporada).getD ""))
             (FixtureScraper.save_json_path FixtureScraper.defaultConfig rowSpain) "42"
             (FixtureScraper.defaultConfig.minDelay
               + (FixtureScraper.defaultConfig.maxDelay - FixtureScraper.defaultConfig.minDelay)
                 * wOneOk.rand.headD 0))
      ∧ FixtureScraper.save_json_path FixtureScraper.defaultConfig rowSpain
          = slashJoin FixtureScraper.defaultConfig.dataDir
              [pyReplaceChar '/' '_' rowSpain.continente,
               pyReplaceChar '/' '_' rowSpain.pais,
               pyReplaceChar '/' '_' rowSpain.competicion ++ "_" ++ rowSpain.id_competicion,
               "la-liga-2024", "fixture.json"]
      ∧ ("Europe" ∈ get_continentes fsUI
          ↔ dirExists fsUI (BASE_PATH ++ "/" ++ "Europe") = true)
      ∧ ("Spain" ∈ get_paises fsUI "Europe"
          ↔ dirExists fsUI (pyJoin [BASE_PATH, "Europe"] ++ "/" ++ "Spain") = true) :=
  ⟨C3_artifact_paths_and_ui_enumeration.1 _ jp0 rowSpain true wOneOk "cb(42)" "42"
     (by decide) (by decide) (by decide) (by decide) (by decide) (by decide)
     (by decide) (by decide),
   C3_artifact_paths_and_ui_enumeration.2.2.1 _ rowSpain "la-liga-2024"
     (by decide) (by decide) (by decide) (by decide) (by decide) (by decide) (by decide),
   C3_artifact_paths_and_ui_enumeration.2.2.2.2.1 fsUI "Europe"
     (by decide) (by decide),
   C3_artifact_paths_and_ui_enumeration.2.2.2.2.2.1 fsUI "Europe" "Spain"
     (by decide) (by decide) (by decide)⟩


/-! ## Interrupt-freedom helper lemmas -/

theorem noInterrupt_cons (r : HttpResult) (l : List HttpResult) :
    noInterrupt (r :: l) = true ↔ (r ≠ HttpResult.interrupt ∧ noInterrupt l = true) := by
  rw [noInterrupt, List.all_cons, Bool.and_eq_true]
  rw [noInterrupt]
  constructor
  · rintro ⟨h1, h2⟩
    refine ⟨?_, h2⟩
    intro hr
    rw [hr] at h1
    exact absurd h1 (by decide)
  · rintro ⟨h1, h2⟩
    refine ⟨?_, h2⟩
    cases r with
    | interrupt => exact absurd rfl h1
    | failure => rfl
    | ok body => rfl

/-- `obtener_fixture_json` never yields `FetchResult.kb` when no
`KeyboardInterrupt` is queued, and it preserves interrupt-freedom of the
remaining queue. -/
theorem fixture_fetch_no_kb (cfg : ScraperConfig) (jp : String → Option String)
    (tid : String) (w : World) (hni : noInterrupt w.http = true) :
    (FixtureScraper.obtener_fixture_json cfg jp tid w).1 ≠ FetchResult.kb
      ∧ noInterrupt (FixtureScraper.obtener_fixture_json cfg jp tid w).2.http = true := by
  cases hw : w.http with
  | nil =>
    rw [hw] at hni
    simp only [FixtureScraper.obtener_fixture_json, popHttp, emit, hw]
    exact ⟨by simp, by simpa using hni⟩
  | cons r0 t =>
    have hni2 : noInterrupt (r0 :: t) = true := by rw [← hw]; exact hni
    have hnit : noInterrupt t = true := ((noInterrupt_cons r0 t).mp hni2).2
    have hr0 : r0 ≠ HttpResult.interrupt := ((noInterrupt_cons r0 t).mp hni2).1
    cases r0 with
    | interrupt => exact absurd rfl hr0
    | failure =>
      simp only [FixtureScraper.obtener_fixture_json, popHttp, emit, hw]
      exact ⟨by simp, by simpa using hnit⟩
    | ok body =>
      simp only [FixtureScraper.obtener_fixture_json, popHttp, emit, hw]
      split
      all_goals exact ⟨by simp, by simpa using hnit⟩

/-- `obtener_standings_json` never yields `FetchResult.kb` when no
`KeyboardInterrupt` is queued, and it preserves interrupt-freedom of the
remaining queue. -/
theorem standings_fetch_no_kb (cfg : ScraperConfig) (jp : String → Option String)
    (tid : String) (w : World) (hni : noInterrupt w.http = true) :
    (StandingsScraper.obtener_standings_json cfg jp tid w).1 ≠ FetchResult.kb
      ∧ noInterrupt (StandingsScraper.obtener_standings_json cfg jp tid w).2.http = true := by
  cases hw : w.http with
  | nil =>
    rw [hw] at hni
    simp only [StandingsScraper.obtener_standings_json, popHttp, emit, hw]
    exact ⟨by simp, by simpa using hni⟩
  | cons r0 t =>
    have hni2 : noInterrupt (r0 :: t) = true := by rw [← hw]; exact hni
    have hnit : noInterrupt t = true := ((noInterrupt_cons r0 t).mp hni2).2
    have hr0 : r0 ≠ HttpResult.interrupt := ((noInterrupt_cons r0 t).mp hni2).1
    cases r0 with
    | interrupt => exact absurd rfl hr0
    | failure =>
      simp only [StandingsScraper.obtener_standings_json, popHttp, emit, hw]
      exact ⟨by simp, by simpa using hnit⟩
    | ok body =>
      simp only [StandingsScraper.obtener_standings_json, popHttp, emit, hw]
      split
      all_goals exact ⟨by simp, by simpa using hnit⟩

/-- Without a queued `KeyboardInterrupt`, `save_fixture_json` returns a
boolean (never `SaveResult.kb`) and leaves an interrupt-free queue. -/
theorem fixture_save_no_kb (cfg : ScraperConfig) (jp : String → Option String)
    (row : SeasonRow) (skip : Bool) (w : World) (hni : noInterrupt w.http = true) :
    (FixtureScraper.save_fixture_json cfg jp row skip w).1 ≠ SaveResult.kb
      ∧ noInterrupt (FixtureScraper.save_fixture_json cfg jp row skip w).2.http = true := by
  obtain ⟨hkb, hni1⟩ :=
    fixture_fetch_no_kb cfg jp ((get_torneo_id row.url_temporada).getD "") w hni
  rcases hf : FixtureScraper.obtener_fixture_json cfg jp
      ((get_torneo_id row.url_temporada).getD "") w with ⟨r, w1⟩
  rw [hf] at hkb hni1
  cases r with
  | kb => exact absurd rfl hkb
  | err =>
    simp only [FixtureScraper.save_fixture_json, hf]
    repeat' split
    all_goals exact ⟨by simp, by first | simpa using hni | simpa using hni1⟩
  | ok d =>
    cases hrand : w1.rand with
    | nil =>
      simp only [FixtureScraper.save_fixture_json, popRand, emit, hf, hrand]
      repeat' split
      all_goals exact ⟨by simp, by first | simpa using hni | simpa using hni1⟩
    | cons q qs =>
      simp only [FixtureScraper.save_fixture_json, popRand, emit, hf, hrand]
      repeat' split
      all_goals exact ⟨by simp, by first | simpa using hni | simpa using hni1⟩

/-- Without a queued `KeyboardInterrupt`, `save_standings_json` returns a
boolean (never `SaveResult.kb`) and leaves an interrupt-free queue. -/
theorem standings_save_no_kb (cfg : ScraperConfig) (jp : String → Option String)
    (row : SeasonRow) (skip : Bool) (c : Counters) (w : World)
    (hni : noInterrupt w.http = true) :
    (StandingsScraper.save_standings_json cfg jp row skip c w).1 ≠ SaveResult.kb
      ∧ noInterrupt (StandingsScraper.save_standings_json cfg jp row skip c w).2.2.http
          = true := by
  obtain ⟨hkb, hni1⟩ :=
    standings_fetch_no_kb cfg jp ((get_torneo_id row.url_temporada).getD "") w hni
  rcases hf : StandingsScraper.obtener_standings_json cfg jp
      ((get_torneo_id row.url_temporada).getD "") w with ⟨r, w1⟩
  rw [hf] at hkb hni1
  cases r with
  | kb => exact absurd rfl hkb
  | err =>
    simp only [StandingsScraper.save_standings_json, hf]
    repeat' split
    all_goals exact ⟨by simp, by first | simpa using hni | simpa using hni1⟩
  | ok d =>
    cases hrand : w1.rand with
    | nil =>
      simp only [StandingsScraper.save_standings_json, popRand, emit, hf, hrand]
      repeat' split
      all_goals exact ⟨by simp, by first | simpa using hni | simpa using hni1⟩
    | cons q qs =>
      simp only [StandingsScraper.save_standings_json, popRand, emit, hf, hrand]
      repeat' split
      all_goals exact ⟨by simp, by first | simpa using hni | simpa using hni1⟩

theorem events_save_no_kb (cfg : MatchEventScraper.Config) (jp : String → Option String)
    (row : EventRow) (skip : Bool) (c : Counters) (w : World)
    (hni : noInterrupt w.http = true) :
    (MatchEventScraper.descargar_evento_partido cfg jp row skip c w).1 ≠ SaveResult.kb
      ∧ noInterrupt (MatchEventScraper.descargar_evento_partido cfg jp row skip c w).2.2.http
          = true := by
  cases hw : w.http with
  | nil =>
    rw [hw] at hni
    simp only [MatchEventScraper.descargar_evento_partido, popHttp, popRand, emit, mkDirs, hw]
    repeat' split
    all_goals exact ⟨by simp, by simpa [hw] using hni⟩
  | cons r0 t =>
    have hni2 : noInterrupt (r0 :: t) = true := by rw [← hw]; exact hni
    have hnit : noInterrupt t = true := ((noInterrupt_cons r0 t).mp hni2).2
    have hr0 : r0 ≠ HttpResult.interrupt := ((noInterrupt_cons r0 t).mp hni2).1
    cases r0 with
    | interrupt => exact absurd rfl hr0
    | failure =>
      simp only [MatchEventScraper.descargar_evento_partido, popHttp, popRand, emit, mkDirs, hw]
      repeat' split
      all_goals exact ⟨by simp, by simpa [hw] using hni2⟩
    | ok body =>
      simp only [MatchEventScraper.descargar_evento_partido, popHttp, popRand, emit, mkDirs, hw]
      repeat' split
      all_goals exact ⟨by simp, by simpa [hw] using hni2⟩

/-! ## C10: the statistics invariant of the fixture bulk loop -/

/-- Each completed iteration of `FixtureScraper.process_loop` bumps
`processed` and exactly one of `success`, `skipped`, `errors`, and never
touches `total_seasons`. -/
theorem fixture_loop_stats (cfg : ScraperConfig) (jp : String → Option String)
    (skip : Bool) (rows : List SeasonRow) (st : FixtureScraper.FixtureStats)
    (w : World) (hb : fixture_loop_breaks cfg jp skip rows w = false) :
    (FixtureScraper.process_loop cfg jp skip rows st w).1.total_seasons
        = st.total_seasons
    ∧ (FixtureScraper.process_loop cfg jp skip rows st w).1.processed
        = st.processed + rows.length
    ∧ (FixtureScraper.process_loop cfg jp skip rows st w).1.success
          + (FixtureScraper.process_loop cfg jp skip rows st w).1.skipped
          + (FixtureScraper.process_loop cfg jp skip rows st w).1.errors
        = st.success + st.skipped + st.errors + rows.length := by
  induction rows generalizing st w with
  | nil => simp [FixtureScraper.process_loop]
  | cons row rest ih =>
    rcases hs : FixtureScraper.save_fixture_json cfg jp row skip w with ⟨r, w1⟩
    cases r with
    | kb =>
      rw [fixture_loop_breaks, hs] at hb
      simp at hb
    | ret b =>
      rw [fixture_loop_breaks, hs] at hb
      have hb1 : fixture_loop_breaks cfg jp skip rest w1 = false := hb
      have hstep : ∃ s2 : FixtureScraper.FixtureStats,
          FixtureScraper.process_loop cfg jp skip (row :: rest) st w
              = FixtureScraper.process_loop cfg jp skip rest s2 w1
            ∧ s2.total_seasons = st.total_seasons
            ∧ s2.processed = st.processed + 1
            ∧ s2.success + s2.skipped + s2.errors
                = st.success + st.skipped + st.errors + 1 := by
        simp only [FixtureScraper.process_loop, hs]
        repeat' split
        all_goals exact ⟨_, rfl, by simp, by simp, by simp; omega⟩
      obtain ⟨s2, he, h1, h2, h3⟩ := hstep
      obtain ⟨ih1, ih2, ih3⟩ := ih s2 w1 hb1
      rw [he]
      simp only [List.length_cons]
      refine ⟨?_, ?_, ?_⟩ <;> omega

/-- C10: when `FixtureScraper.process_seasons` runs to completion (no
`KeyboardInterrupt` during any iteration over the selected slice), the
returned statistics satisfy `processed = success + skipped + errors` and
`processed = total_seasons`, the number of rows of the selected slice of
the filtered DataFrame. -/
theorem C10_stats_invariant (cfg : ScraperConfig) (jp : String → Option String)
    (df : List (Nat × SeasonRow)) (filters : List (String × FilterVal))
    (skip : Bool) (start_index : Nat) (limit : Option Nat) (w : World)
    (hb : fixture_loop_breaks cfg jp skip
        ((FixtureScraper.selected_slice df filters start_index limit).map Prod.snd) w
        = false) :
    (FixtureScraper.process_seasons cfg jp df filters skip start_index limit w).1.processed
        = (FixtureScraper.process_seasons cfg jp df filters skip start_index limit w).1.success
          + (FixtureScraper.process_seasons cfg jp df filters skip start_index limit w).1.skipped
          + (FixtureScraper.process_seasons cfg jp df filters skip start_index limit w).1.errors
    ∧ (FixtureScraper.process_seasons cfg jp df filters skip start_index limit w).1.processed
        = (FixtureScraper.process_seasons cfg jp df filters skip start_index limit w).1.total_seasons
    ∧ (FixtureScraper.process_seasons cfg jp df filters skip start_index limit w).1.total_seasons
        = (FixtureScraper.selected_slice df filters start_index limit).length := by
  have hps : FixtureScraper.process_seasons cfg jp df filters skip start_index limit w
      = FixtureScraper.process_loop cfg jp skip
          ((FixtureScraper.selected_slice df filters start_index limit).map Prod.snd)
          { total_seasons :=
              ((FixtureScraper.selected_slice df filters start_index limit).map
                Prod.snd).length,
            processed := 0, success := 0, skipped := 0, errors := 0 } w := rfl
  obtain ⟨h1, h2, h3⟩ := fixture_loop_stats cfg jp skip
      ((FixtureScraper.selected_slice df filters start_index limit).map Prod.snd)
      { total_seasons :=
          ((FixtureScraper.selected_slice df filters start_index limit).map
            Prod.snd).length,
        processed := 0, success := 0, skipped := 0, errors := 0 } w hb
  rw [hps]
  refine ⟨?_, ?_, ?_⟩
  · rw [h2, h3]; simp
  · rw [h2, h1]; simp
  · rw [h1]; simp [List.length_map]

/-- Witness for C10 at a concrete two-row run (one failed download, one
successful one re-counted as skipped by the post-write re-check). -/
theorem C10_stats_invariant_witness :
    (fixture_loop_breaks FixtureScraper.defaultConfig jp0 true
        ((FixtureScraper.selected_slice dfTwoSpain filtersEurope 0 none).map Prod.snd)
        wTwoRuns = false)
    ∧ ((FixtureScraper.process_seasons FixtureScraper.defaultConfig jp0 dfTwoSpain
          filtersEurope true 0 none wTwoRuns).1.processed
        = (FixtureScraper.process_seasons FixtureScraper.defaultConfig jp0 dfTwoSpain
            filtersEurope true 0 none wTwoRuns).1.success
          + (FixtureScraper.process_seasons FixtureScraper.defaultConfig jp0 dfTwoSpain
              filtersEurope true 0 none wTwoRuns).1.skipped
          + (FixtureScraper.process_seasons FixtureScraper.defaultConfig jp0 dfTwoSpain
              filtersEurope true 0 none wTwoRuns).1.errors
      ∧ (FixtureScraper.process_seasons FixtureScraper.defaultConfig jp0 dfTwoSpain
            filtersEurope true 0 none wTwoRuns).1.processed
        = (FixtureScraper.process_seasons FixtureScraper.defaultConfig jp0 dfTwoSpain
            filtersEurope true 0 none wTwoRuns).1.total_seasons
      ∧ (FixtureScraper.process_seasons FixtureScraper.defaultConfig jp0 dfTwoSpain
            filtersEurope true 0 none wTwoRuns).1.total_seasons
        = (FixtureScraper.selected_slice dfTwoSpain filtersEurope 0 none).length) :=
  ⟨by decide,
   C10_stats_invariant FixtureScraper.defaultConfig jp0 dfTwoSpain filtersEurope
     true 0 none wTwoRuns (by decide)⟩


/-! ## C6: `KeyboardInterrupt` is the only way out of the bulk loops -/

/-- When a `KeyboardInterrupt` fires during the iteration after `pre`, the
fixture loop stops there: the tail rows are never processed, and the stats
are exactly those accumulated over `pre`. -/
theorem fixture_loop_truncate (cfg : ScraperConfig) (jp : String → Option String)
    (skip : Bool) :
    ∀ (pre post : List SeasonRow) (row : SeasonRow)
      (st : FixtureScraper.FixtureStats) (w : World),
      fixture_loop_breaks cfg jp skip pre w = false →
      (FixtureScraper.save_fixture_json cfg jp row skip
          (FixtureScraper.process_loop cfg jp skip pre st w).2).1 = SaveResult.kb →
      FixtureScraper.process_loop cfg jp skip (pre ++ row :: post) st w
        = ((FixtureScraper.process_loop cfg jp skip pre st w).1,
           (FixtureScraper.save_fixture_json cfg jp row skip
              (FixtureScraper.process_loop cfg jp skip pre st w).2).2) := by
  intro pre
  induction pre with
  | nil =>
    intro post row st w _ hkb
    simp only [FixtureScraper.process_loop, List.nil_append] at hkb ⊢
    rcases hsv : FixtureScraper.save_fixture_json cfg jp row skip w with ⟨r, w1⟩
    rw [hsv] at hkb
    have hr : r = SaveResult.kb := hkb
    subst hr
    simp only [hsv]
  | cons p pre ih =>
    intro post row st w hb hkb
    rcases hs : FixtureScraper.save_fixture_json cfg jp p skip w with ⟨r, w1⟩
    cases r with
    | kb =>
      rw [fixture_loop_breaks, hs] at hb
      simp at hb
    | ret b =>
      rw [fixture_loop_breaks, hs] at hb
      have hb1 : fixture_loop_breaks cfg jp skip pre w1 = false := hb
      simp only [List.cons_append, FixtureScraper.process_loop, hs] at hkb ⊢
      exact ih post row _ w1 hb1 hkb

/-- Same truncation property for the standings loop. -/
theorem standings_loop_truncate (cfg : ScraperConfig) (jp : String → Option String)
    (skip : Bool) :
    ∀ (pre post : List SeasonRow) (row : SeasonRow) (c : Counters) (w : World),
      standings_loop_breaks cfg jp skip pre c w = false →
      (StandingsScraper.save_standings_json cfg jp row skip
          (StandingsScraper.process_loop cfg jp skip pre c w).1
          (StandingsScraper.process_loop cfg jp skip pre c w).2).1 = SaveResult.kb →
      StandingsScraper.process_loop cfg jp skip (pre ++ row :: post) c w
        = (StandingsScraper.save_standings_json cfg jp row skip
            (StandingsScraper.process_loop cfg jp skip pre c w).1
            (StandingsScraper.process_loop cfg jp skip pre c w).2).2 := by
  intro pre
  induction pre with
  | nil =>
    intro post row c w _ hkb
    simp only [StandingsScraper.process_loop, List.nil_append] at hkb ⊢
    rcases hsv : StandingsScraper.save_standings_json cfg jp row skip c w with ⟨r, c1, w1⟩
    rw [hsv] at hkb
    have hr : r = SaveResult.kb := hkb
    subst hr
    simp only [hsv]
  | cons p pre ih =>
    intro post row c w hb hkb
    rcases hs : StandingsScraper.save_standings_json cfg jp p skip c w with ⟨r, c1, w1⟩
    cases r with
    | kb =>
      rw [standings_loop_breaks, hs] at hb
      simp at hb
    | ret b =>
      rw [standings_loop_breaks, hs] at hb
      have hb1 : standings_loop_breaks cfg jp skip pre
          { c1 with procesados := c1.procesados + 1 } w1 = false := hb
      simp only [List.cons_append, StandingsScraper.process_loop, hs] at hkb ⊢
      exact ih post row _ w1 hb1 hkb

/-- Same truncation property for the match-events loop. -/
theorem events_loop_truncate (cfg : MatchEventScraper.Config)
    (jp : String → Option String) (skip : Bool) :
    ∀ (pre post : List EventRow) (row : EventRow) (c : Counters) (w : World),
      events_loop_breaks cfg jp skip pre c w = false →
      (MatchEventScraper.descargar_evento_partido cfg jp row skip
          (MatchEventScraper.download_loop cfg jp skip pre c w).1
          (MatchEventScraper.download_loop cfg jp skip pre c w).2).1 = SaveResult.kb →
      MatchEventScraper.download_loop cfg jp skip (pre ++ row :: post) c w
        = (MatchEventScraper.descargar_evento_partido cfg jp row skip
            (MatchEventScraper.download_loop cfg jp skip pre c w).1
            (MatchEventScraper.download_loop cfg jp skip pre c w).2).2 := by
  intro pre
  induction pre with
  | nil =>
    intro post row c w _ hkb
    simp only [MatchEventScraper.download_loop, List.nil_append] at hkb ⊢
    rcases hsv : MatchEventScraper.descargar_evento_partido cfg jp row skip c w with ⟨r, c1, w1⟩
    rw [hsv] at hkb
    have hr : r = SaveResult.kb := hkb
    subst hr
    simp only [hsv]
  | cons p pre ih =>
    intro post row c w hb hkb
    rcases hs : MatchEventScraper.descargar_evento_partido cfg jp p skip c w with ⟨r, c1, w1⟩
    cases r with
    | kb =>
      rw [events_loop_breaks, hs] at hb
      simp at hb
    | ret b =>
      rw [events_loop_breaks, hs] at hb
      have hb1 : events_loop_breaks cfg jp skip pre
          { c1 with procesados := c1.procesados + 1 } w1 = false := hb
      simp only [List.cons_append, MatchEventScraper.download_loop, hs] at hkb ⊢
      exact ih post row _ w1 hb1 hkb

/-- Without a queued `KeyboardInterrupt` the fixture loop never stops early:
no other condition can break it. -/
theorem fixture_no_break (cfg : ScraperConfig) (jp : String → Option String)
    (skip : Bool) :
    ∀ (rows : List SeasonRow) (w : World), noInterrupt w.http = true →
      fixture_loop_breaks cfg jp skip rows w = false := by
  intro rows
  induction rows with
  | nil => intro w _; simp [fixture_loop_breaks]
  | cons row rest ih =>
    intro w hni
    obtain ⟨hkb, hni1⟩ := fixture_save_no_kb cfg jp row skip w hni
    rcases hs : FixtureScraper.save_fixture_json cfg jp row skip w with ⟨r, w1⟩
    rw [hs] at hkb hni1
    cases r with
    | kb => exact absurd rfl hkb
    | ret b =>
      rw [fixture_loop_breaks, hs]
      exact ih w1 hni1

/-- Without a queued `KeyboardInterrupt` the standings loop never stops
early. -/
theorem standings_no_break (cfg : ScraperConfig) (jp : String → Option String)
    (skip : Bool) :
    ∀ (rows : List SeasonRow) (c : Counters) (w : World), noInterrupt w.http = true →
      standings_loop_breaks cfg jp skip rows c w = false := by
  intro rows
  induction rows with
  | nil => intro c w _; simp [standings_loop_breaks]
  | cons row rest ih =>
    intro c w hni
    obtain ⟨hkb, hni1⟩ := standings_save_no_kb cfg jp row skip c w hni
    rcases hs : StandingsScraper.save_standings_json cfg jp row skip c w with ⟨r, c1, w1⟩
    rw [hs] at hkb hni1
    cases r with
    | kb => exact absurd rfl hkb
    | ret b =>
      rw [standings_loop_breaks, hs]
      exact ih _ w1 hni1

/-- Without a queued `KeyboardInterrupt` the match-events loop never stops
early. -/
theorem events_no_break (cfg : MatchEventScraper.Config) (jp : String → Option String)
    (skip : Bool) :
    ∀ (rows : List EventRow) (c : Counters) (w : World), noInterrupt w.http = true →
      events_loop_breaks cfg jp skip rows c w = false := by
  intro rows
  induction rows with
  | nil => intro c w _; simp [events_loop_breaks]
  | cons row rest ih =>
    intro c w hni
    obtain ⟨hkb, hni1⟩ := events_save_no_kb cfg jp row skip c w hni
    rcases hs : MatchEventScraper.descargar_evento_partido cfg jp row skip c w with ⟨r, c1, w1⟩
    rw [hs] at hkb hni1
    cases r with
    | kb => exact absurd rfl hkb
    | ret b =>
      rw [events_loop_breaks, hs]
      exact ih _ w1 hni1


/-- C6: a `KeyboardInterrupt` raised during an iteration of any of the three
bulk loops (fixture, standings, match events) stops the loop right there —
no later row is processed and the accumulated statistics are exactly those
of the completed iterations — and, conversely, when no interrupt is pending
nothing else can break a loop early. -/
theorem C6_interrupt_only (cfg : ScraperConfig) (ecfg : MatchEventScraper.Config)
    (jp : String → Option String) (skip : Bool) :
    (∀ (pre post : List SeasonRow) (row : SeasonRow)
        (st : FixtureScraper.FixtureStats) (w : World),
      fixture_loop_breaks cfg jp skip pre w = false →
      (FixtureScraper.save_fixture_json cfg jp row skip
          (FixtureScraper.process_loop cfg jp skip pre st w).2).1 = SaveResult.kb →
      FixtureScraper.process_loop cfg jp skip (pre ++ row :: post) st w
        = ((FixtureScraper.process_loop cfg jp skip pre st w).1,
           (FixtureScraper.save_fixture_json cfg jp row skip
              (FixtureScraper.process_loop cfg jp skip pre st w).2).2))
    ∧ (∀ (rows : List SeasonRow) (w : World), noInterrupt w.http = true →
        fixture_loop_breaks cfg jp skip rows w = false)
    ∧ (∀ (pre post : List SeasonRow) (row : SeasonRow) (c : Counters) (w : World),
      standings_loop_breaks cfg jp skip pre c w = false →
      (StandingsScraper.save_standings_json cfg jp row skip
          (StandingsScraper.process_loop cfg jp skip pre c w).1
          (StandingsScraper.process_loop cfg jp skip pre c w).2).1 = SaveResult.kb →
      StandingsScraper.process_loop cfg jp skip (pre ++ row :: post) c w
        = (StandingsScraper.save_standings_json cfg jp row skip
            (StandingsScraper.process_loop cfg jp skip pre c w).1
            (StandingsScraper.process_loop cfg jp skip pre c w).2).2)
    ∧ (∀ (rows : List SeasonRow) (c : Counters) (w : World), noInterrupt w.http = true →
        standings_loop_breaks cfg jp skip rows c w = false)
    ∧ (∀ (pre post : List EventRow) (row : EventRow) (c : Counters) (w : World),
      events_loop_breaks ecfg jp skip pre c w = false →
      (MatchEventScraper.descargar_evento_partido ecfg jp row skip
          (MatchEventScraper.download_loop ecfg jp skip pre c w).1
          (MatchEventScraper.download_loop ecfg jp skip pre c w).2).1 = SaveResult.kb →
      MatchEventScraper.download_loop ecfg jp skip (pre ++ row :: post) c w
        = (MatchEventScraper.descargar_evento_partido ecfg jp row skip
            (MatchEventScraper.download_loop ecfg jp skip pre c w).1
            (MatchEventScraper.download_loop ecfg jp skip pre c w).2).2)
    ∧ (∀ (rows : List EventRow) (c : Counters) (w : World), noInterrupt w.http = true →
        events_loop_breaks ecfg jp skip rows c w = false) :=
  ⟨fixture_loop_truncate cfg jp skip, fixture_no_break cfg jp skip,
   standings_loop_truncate cfg jp skip, standings_no_break cfg jp skip,
   events_loop_truncate ecfg jp skip, events_no_break ecfg jp skip⟩

/-- Witness for C6: a two-row fixture run whose first pending HTTP slot is a
`KeyboardInterrupt` stops before processing any row. -/
theorem C6_interrupt_only_witness :
    fixture_loop_breaks FixtureScraper.defaultConfig jp0 true [] wInterrupt = false
    ∧ (FixtureScraper.save_fixture_json FixtureScraper.defaultConfig jp0 rowSpain true
        (FixtureScraper.process_loop FixtureScraper.defaultConfig jp0 true []
          { total_seasons := 2, processed := 0, success := 0, skipped := 0, errors := 0 } wInterrupt).2).1 = SaveResult.kb
    ∧ FixtureScraper.process_loop FixtureScraper.defaultConfig jp0 true
        ([] ++ rowSpain :: [rowSpain]) { total_seasons := 2, processed := 0, success := 0, skipped := 0, errors := 0 } wInterrupt
      = ((FixtureScraper.process_loop FixtureScraper.defaultConfig jp0 true []
            { total_seasons := 2, processed := 0, success := 0, skipped := 0, errors := 0 } wInterrupt).1,
         (FixtureScraper.save_fixture_json FixtureScraper.defaultConfig jp0 rowSpain true
            (FixtureScraper.process_loop FixtureScraper.defaultConfig jp0 true []
              { total_seasons := 2, processed := 0, success := 0, skipped := 0, errors := 0 } wInterrupt).2).2) :=
  ⟨by decide, by decide,
   (C6_interrupt_only FixtureScraper.defaultConfig MatchEventScraper.defaultConfig
       jp0 true).1
     [] [rowSpain] rowSpain { total_seasons := 2, processed := 0, success := 0, skipped := 0, errors := 0 } wInterrupt (by decide) (by decide)⟩


/-! ## C7: request pacing -/

/-- `min_delay + (max_delay - min_delay) * u` lies in
`[min_delay, max_delay]` for `u ∈ [0, 1]`. -/
theorem sleep_range (mn mx u : ℚ) (hm : mn ≤ mx) (h0 : 0 ≤ u) (h1 : u ≤ 1) :
    mn ≤ mn + (mx - mn) * u ∧ mn + (mx - mn) * u ≤ mx := by
  constructor <;> nlinarith

/-- One `save_fixture_json` call appends one of the three permitted trace
shapes; a sleep occurs only right after a successful write and its duration
is in range. -/
theorem fixture_save_trace_shape (cfg : ScraperConfig) (jp : String → Option String)
    (row : SeasonRow) (skip : Bool) (w : World)
    (hmin : cfg.minDelay ≤ cfg.maxDelay)
    (hrand : ∀ u ∈ w.rand, 0 ≤ u ∧ u ≤ 1) :
    (FixtureScraper.save_fixture_json cfg jp row skip w).2.trace
        = w.trace ++
          ((FixtureScraper.save_fixture_json cfg jp row skip w).2.trace.drop
            w.trace.length)
    ∧ traceDeltaShape cfg.minDelay cfg.maxDelay
        ((FixtureScraper.save_fixture_json cfg jp row skip w).2.trace.drop
          w.trace.length) = true := by
  rcases hr : w.rand with _ | ⟨q, qs⟩
  · have hd := sleep_range cfg.minDelay cfg.maxDelay 0 hmin le_rfl zero_le_one
    cases hw : w.http with
    | nil =>
      simp only [FixtureScraper.save_fixture_json, FixtureScraper.obtener_fixture_json,
        popHttp, popRand, emit, hw, hr]
      repeat' split
      all_goals refine ⟨by simp [List.drop_left], ?_⟩
      all_goals simp [traceDeltaShape, List.drop_left, hd.1, hd.2, hmin]
    | cons r0 t =>
      cases r0 with
      | interrupt =>
        simp only [FixtureScraper.save_fixture_json, FixtureScraper.obtener_fixture_json,
          popHttp, popRand, emit, hw, hr]
        repeat' split
        all_goals refine ⟨by simp [List.drop_left], ?_⟩
        all_goals simp [traceDeltaShape, List.drop_left, hd.1, hd.2, hmin]
      | failure =>
        simp only [FixtureScraper.save_fixture_json, FixtureScraper.obtener_fixture_json,
          popHttp, popRand, emit, hw, hr]
        repeat' split
        all_goals refine ⟨by simp [List.drop_left], ?_⟩
        all_goals simp [traceDeltaShape, List.drop_left, hd.1, hd.2, hmin]
      | ok body =>
        cases hp : (jsonpSliceFixture body).bind jp with
        | none =>
          simp only [FixtureScraper.save_fixture_json, FixtureScraper.obtener_fixture_json,
            popHttp, popRand, emit, hw, hr, hp]
          repeat' split
          all_goals refine ⟨by simp [List.drop_left], ?_⟩
          all_goals simp [traceDeltaShape, List.drop_left, hd.1, hd.2, hmin]
        | some d =>
          simp only [FixtureScraper.save_fixture_json, FixtureScraper.obtener_fixture_json,
            popHttp, popRand, emit, hw, hr, hp]
          repeat' split
          all_goals refine ⟨by simp [List.drop_left], ?_⟩
          all_goals simp [traceDeltaShape, List.drop_left, hd.1, hd.2, hmin]
  · have hq := hrand q (by rw [hr]; exact List.mem_cons_self q qs)
    have hd := sleep_range cfg.minDelay cfg.maxDelay q hmin hq.1 hq.2
    cases hw : w.http with
    | nil =>
      simp only [FixtureScraper.save_fixture_json, FixtureScraper.obtener_fixture_json,
        popHttp, popRand, emit, hw, hr]
      repeat' split
      all_goals refine ⟨by simp [List.drop_left], ?_⟩
      all_goals simp [traceDeltaShape, List.drop_left, hd.1, hd.2, hmin]
    | cons r0 t =>
      cases r0 with
      | interrupt =>
        simp only [FixtureScraper.save_fixture_json, FixtureScraper.obtener_fixture_json,
          popHttp, popRand, emit, hw, hr]
        repeat' split
        all_goals refine ⟨by simp [List.drop_left], ?_⟩
        all_goals simp [traceDeltaShape, List.drop_left, hd.1, hd.2, hmin]
      | failure =>
        simp only [FixtureScraper.save_fixture_json, FixtureScraper.obtener_fixture_json,
          popHttp, popRand, emit, hw, hr]
        repeat' split
        all_goals refine ⟨by simp [List.drop_left], ?_⟩
        all_goals simp [traceDeltaShape, List.drop_left, hd.1, hd.2, hmin]
      | ok body =>
        cases hp : (jsonpSliceFixture body).bind jp with
        | none =>
          simp only [FixtureScraper.save_fixture_json, FixtureScraper.obtener_fixture_json,
            popHttp, popRand, emit, hw, hr, hp]
          repeat' split
          all_goals refine ⟨by simp [List.drop_left], ?_⟩
          all_goals simp [traceDeltaShape, List.drop_left, hd.1, hd.2, hmin]
        | some d =>
          simp only [FixtureScraper.save_fixture_json, FixtureScraper.obtener_fixture_json,
            popHttp, popRand, emit, hw, hr, hp]
          repeat' split
          all_goals refine ⟨by simp [List.drop_left], ?_⟩
          all_goals simp [traceDeltaShape, List.drop_left, hd.1, hd.2, hmin]


theorem standings_save_trace_shape (cfg : ScraperConfig) (jp : String → Option String)
    (row : SeasonRow) (skip : Bool) (c : Counters) (w : World)
    (hmin : cfg.minDelay ≤ cfg.maxDelay)
    (hrand : ∀ u ∈ w.rand, 0 ≤ u ∧ u ≤ 1) :
    (StandingsScraper.save_standings_json cfg jp row skip c w).2.2.trace
        = w.trace ++
          ((StandingsScraper.save_standings_json cfg jp row skip c w).2.2.trace.drop
            w.trace.length)
    ∧ traceDeltaShape cfg.minDelay cfg.maxDelay
        ((StandingsScraper.save_standings_json cfg jp row skip c w).2.2.trace.drop
          w.trace.length) = true := by
  rcases hr : w.rand with _ | ⟨q, qs⟩
  · have hd := sleep_range cfg.minDelay cfg.maxDelay 0 hmin le_rfl zero_le_one
    cases hw : w.http with
    | nil =>
      simp only [StandingsScraper.save_standings_json, StandingsScraper.obtener_standings_json,
        popHttp, popRand, emit, hw, hr]
      repeat' split
      all_goals refine ⟨by simp [List.drop_left], ?_⟩
      all_goals simp [traceDeltaShape, List.drop_left, hd.1, hd.2, hmin]
    | cons r0 t =>
      cases r0 with
      | interrupt =>
        simp only [StandingsScraper.save_standings_json, StandingsScraper.obtener_standings_json,
          popHttp, popRand, emit, hw, hr]
        repeat' split
        all_goals refine ⟨by simp [List.drop_left], ?_⟩
        all_goals simp [traceDeltaShape, List.drop_left, hd.1, hd.2, hmin]
      | failure =>
        simp only [StandingsScraper.save_standings_json, StandingsScraper.obtener_standings_json,
          popHttp, popRand, emit, hw, hr]
        repeat' split
        all_goals refine ⟨by simp [List.drop_left], ?_⟩
        all_goals simp [traceDeltaShape, List.drop_left, hd.1, hd.2, hmin]
      | ok body =>
        cases hp : (jsonpSliceFixture body).bind jp with
        | none =>
          simp only [StandingsScraper.save_standings_json, StandingsScraper.obtener_standings_json,
            popHttp, popRand, emit, hw, hr, hp]
          repeat' split
          all_goals refine ⟨by simp [List.drop_left], ?_⟩
          all_goals simp [traceDeltaShape, List.drop_left, hd.1, hd.2, hmin]
        | some d =>
          simp only [StandingsScraper.save_standings_json, StandingsScraper.obtener_standings_json,
            popHttp, popRand, emit, hw, hr, hp]
          repeat' split
          all_goals refine ⟨by simp [List.drop_left], ?_⟩
          all_goals simp [traceDeltaShape, List.drop_left, hd.1, hd.2, hmin]
  · have hq := hrand q (by rw [hr]; exact List.mem_cons_self q qs)
    have hd := sleep_range cfg.minDelay cfg.maxDelay q hmin hq.1 hq.2
    cases hw : w.http with
    | nil =>
      simp only [StandingsScraper.save_standings_json, StandingsScraper.obtener_standings_json,
        popHttp, popRand, emit, hw, hr]
      repeat' split
      all_goals refine ⟨by simp [List.drop_left], ?_⟩
      all_goals simp [traceDeltaShape, List.drop_left, hd.1, hd.2, hmin]
    | cons r0 t =>
      cases r0 with
      | interrupt =>
        simp only [StandingsScraper.save_standings_json, StandingsScraper.obtener_standings_json,
          popHttp, popRand, emit, hw, hr]
        repeat' split
        all_goals refine ⟨by simp [List.drop_left], ?_⟩
        all_goals simp [traceDeltaShape, List.drop_left, hd.1, hd.2, hmin]
      | failure =>
        simp only [StandingsScraper.save_standings_json, StandingsScraper.obtener_standings_json,
          popHttp, popRand, emit, hw, hr]
        repeat' split
        all_goals refine ⟨by simp [List.drop_left], ?_⟩
        all_goals simp [traceDeltaShape, List.drop_left, hd.1, hd.2, hmin]
      | ok body =>
        cases hp : (jsonpSliceFixture body).bind jp with
        | none =>
          simp only [StandingsScraper.save_standings_json, StandingsScraper.obtener_standings_json,
            popHttp, popRand, emit, hw, hr, hp]
          repeat' split
          all_goals refine ⟨by simp [List.drop_left], ?_⟩
          all_goals simp [traceDeltaShape, List.drop_left, hd.1, hd.2, hmin]
        | some d =>
          simp only [StandingsScraper.save_standings_json, StandingsScraper.obtener_standings_json,
            popHttp, popRand, emit, hw, hr, hp]
          repeat' split
          all_goals refine ⟨by simp [List.drop_left], ?_⟩
          all_goals simp [traceDeltaShape, List.drop_left, hd.1, hd.2, hmin]


set_option maxRecDepth 8192 in
/-- Counterexample to C7: in a concrete two-row `process_seasons` run whose
first download fails, the two HTTP requests are back-to-back — the sleep
only follows the later, successful download, so consecutive requests are
not always separated by a sleep. -/
theorem C7_uniform_sleep_counterexample :
    (FixtureScraper.process_seasons FixtureScraper.defaultConfig jp0 dfTwoSpain
        filtersEurope true 0 none wTwoRuns).2.trace.take 3
      = [Event.get (FixtureScraper.fixture_api_url FixtureScraper.defaultConfig
            ((get_torneo_id rowSpain.url_temporada).getD "")),
         Event.get (FixtureScraper.fixture_api_url FixtureScraper.defaultConfig
            ((get_torneo_id rowSpain.url_temporada).getD "")),
         Event.write (FixtureScraper.save_json_path FixtureScraper.defaultConfig rowSpain)]
    ∧ requestsSeparated
        (FixtureScraper.process_seasons FixtureScraper.defaultConfig jp0 dfTwoSpain
          filtersEurope true 0 none wTwoRuns).2.trace = false :=
  ⟨by decide, by decide⟩

/-- C7 (amended): requests are sequential — each save call issues at most
one request — and a randomized sleep in `[min_delay, max_delay]` follows
each successful download only; failed or skipped rows add no sleep. -/
theorem C7_sleep_discipline_amended (cfg : ScraperConfig) (jp : String → Option String)
    (row : SeasonRow) (skip : Bool) (c : Counters) (w : World)
    (hmin : cfg.minDelay ≤ cfg.maxDelay)
    (hrand : ∀ u ∈ w.rand, 0 ≤ u ∧ u ≤ 1) :
    ((FixtureScraper.save_fixture_json cfg jp row skip w).2.trace
        = w.trace ++
          ((FixtureScraper.save_fixture_json cfg jp row skip w).2.trace.drop
            w.trace.length)
      ∧ traceDeltaShape cfg.minDelay cfg.maxDelay
          ((FixtureScraper.save_fixture_json cfg jp row skip w).2.trace.drop
            w.trace.length) = true)
    ∧ ((StandingsScraper.save_standings_json cfg jp row skip c w).2.2.trace
        = w.trace ++
          ((StandingsScraper.save_standings_json cfg jp row skip c w).2.2.trace.drop
            w.trace.length)
      ∧ traceDeltaShape cfg.minDelay cfg.maxDelay
          ((StandingsScraper.save_standings_json cfg jp row skip c w).2.2.trace.drop
            w.trace.length) = true) :=
  ⟨fixture_save_trace_shape cfg jp row skip w hmin hrand,
   standings_save_trace_shape cfg jp row skip c w hmin hrand⟩

/-- Witness for the amended C7 at a concrete successful download. -/
theorem C7_sleep_discipline_witness :
    (FixtureScraper.defaultConfig.minDelay ≤ FixtureScraper.defaultConfig.maxDelay)
    ∧ (∀ u ∈ wOneOk.rand, 0 ≤ u ∧ u ≤ 1)
    ∧ (((FixtureScraper.save_fixture_json FixtureScraper.defaultConfig jp0 rowSpain
            true wOneOk).2.trace
          = wOneOk.trace ++
            ((FixtureScraper.save_fixture_json FixtureScraper.defaultConfig jp0 rowSpain
                true wOneOk).2.trace.drop wOneOk.trace.length)
        ∧ traceDeltaShape FixtureScraper.defaultConfig.minDelay
            FixtureScraper.defaultConfig.maxDelay
            ((FixtureScraper.save_fixture_json FixtureScraper.defaultConfig jp0 rowSpain
                true wOneOk).2.trace.drop wOneOk.trace.length) = true)
      ∧ ((StandingsScraper.save_standings_json FixtureScraper.defaultConfig jp0 rowSpain
            true Counters.zero wOneOk).2.2.trace
          = wOneOk.trace ++
            ((StandingsScraper.save_standings_json FixtureScraper.defaultConfig jp0
                rowSpain true Counters.zero wOneOk).2.2.trace.drop wOneOk.trace.length)
        ∧ traceDeltaShape FixtureScraper.defaultConfig.minDelay
            FixtureScraper.defaultConfig.maxDelay
            ((StandingsScraper.save_standings_json FixtureScraper.defaultConfig jp0
                rowSpain true Counters.zero wOneOk).2.2.trace.drop
              wOneOk.trace.length) = true)) :=
  ⟨by decide, by decide,
   C7_sleep_discipline_amended FixtureScraper.defaultConfig jp0 rowSpain true
     Counters.zero wOneOk (by decide) (by decide)⟩


end FFC





